import Mathlib

/-!
Shallow embedding of `wavefront_django_sdk_python` (files
`application_tags.py` and `middleware.py`) together with proofs about the
request-lifecycle metric instrumentation.

Modelling conventions:
* Python strings are `String`; optional strings are `Option String`; Python
  truthiness of an optional string is `pyTruthy` (`None` and `""` are falsy),
  and `x or d` is `pyOr x d`.
* The metric registry is a record of total maps keyed by `(name, tag map)`.
  A gauge stores `Option Int`: `none` models the NaN value a fresh pyformance
  gauge reports before it is first set (`update_gauge` treats NaN as `0`).
* The registry mutations performed by `process_view` / `process_response` are
  collected as a list of `Event`s in source order and folded into the
  registry.  Float-valued durations are not modelled: a histogram event
  records that one sample was added, not the sample's value.  Tracing calls
  (`django_opentracing` spans) touch no metric state and are omitted.
* `constants.py` of this repository is imported by `middleware.py` but is not
  among the sources; the constants it provides are modelled from the spec,
  see the doc comments on each.
-/

/-- Modelled from the spec: `constants.py` (missing from the sources) defines
`NULL_TAG_VAL`, the "sentinel null-tag value".  The spec requires both that an
absent cluster/shard still appears under its tag key in `get_as_list`
(`cluster or NULL_TAG_VAL` is the bound value) and that the very same
sentinel-defaulted middleware fields (`self.CLUSTER`, `self.SHARD`) are
skipped when `get_tags_map` builds aggregation tag sets; since `get_tags_map`
skips exactly the falsy values, the sentinel must be the falsy string `""`. -/
def NULL_TAG_VAL : String := ""

/-- Modelled from the spec: `constants.py` value for the request-side metric
name prefix; the spec fixes it to `request` ("prefix is `request` for
in-flight/error naming"). -/
def REQUEST_PREFIX_VAL : String := "request"

/-- Modelled from the spec: `constants.py` value for the response-side metric
name prefix; the spec fixes it to `response` ("`response` when a terminal
status is known"). -/
def RESPONSE_PREFIX_VAL : String := "response"

/-- Modelled from the spec: `constants.py` value of the "server-provided"
source sentinel placed under the `source` tag of aggregated rollups.  The
exact string is not pinned by the spec; no claim depends on it, only on it
being a fixed truthy value. -/
def WAVEFRONT_PROVIDED_SOURCE : String := "wavefront-provided"

/-- Modelled from the spec: `constants.py` tag key for the application
dimension used by `ApplicationTags.get_as_list`. -/
def APPLICATION_TAG_KEY : String := "application"

/-- Modelled from the spec: `constants.py` tag key for the service dimension. -/
def SERVICE_TAG_KEY : String := "service"

/-- Modelled from the spec: `constants.py` tag key for the cluster dimension. -/
def CLUSTER_TAG_KEY : String := "cluster"

/-- Modelled from the spec: `constants.py` tag key for the shard dimension. -/
def SHARD_TAG_KEY : String := "shard"

/-- Python truthiness of an optional string: `None` and `""` are falsy. -/
def pyTruthy : Option String → Bool
  | none => false
  | some s => !(s == "")

/-- Python `x or d` for an optional string `x` and a string default `d`. -/
def pyOr (x : Option String) (d : String) : String :=
  match x with
  | none => d
  | some s => if s == "" then d else s

/-- `ApplicationTags` (`application_tags.py`): immutable application identity.
The underscore-prefixed Python attributes are exposed read-only through
properties; here they are plain structure fields (immutable by construction). -/
structure ApplicationTags where
  application : String
  service : String
  cluster : Option String
  shard : Option String
  custom_tags : Option (List (String × String))
deriving DecidableEq

/-- `ApplicationTags.__init__`: fails (raises `AttributeError`, modelled as
`Except.error`) iff the `application` or the `service` argument is falsy
(missing/`None`/empty); otherwise stores the arguments unchanged. -/
def ApplicationTags.init (application service cluster shard : Option String)
    (custom_tags : Option (List (String × String))) :
    Except String ApplicationTags :=
  if pyTruthy application = false then
    Except.error "Missing \"application\" parameter in ApplicationTags!"
  else if pyTruthy service = false then
    Except.error "Missing \"service\" parameter in ApplicationTags!"
  else
    Except.ok
      { application := application.getD ""
        service := service.getD ""
        cluster := cluster
        shard := shard
        custom_tags := custom_tags }

/-- `ApplicationTags.get_as_list`: the four identity dimensions as a list of
`(key, value)` pairs, with absent cluster/shard bound to `NULL_TAG_VAL`. -/
def ApplicationTags.get_as_list (t : ApplicationTags) : List (String × String) :=
  [(APPLICATION_TAG_KEY, t.application),
   (SERVICE_TAG_KEY, t.service),
   (CLUSTER_TAG_KEY, pyOr t.cluster NULL_TAG_VAL),
   (SHARD_TAG_KEY, pyOr t.shard NULL_TAG_VAL)]

/-- Django's `request.resolver_match`: `url_name` may be `None` or empty,
`view_name` is a string. -/
structure ResolverMatch where
  url_name : Option String
  view_name : String
deriving DecidableEq

/-- The slice of a Django request that the middleware reads.  `func_name` and
`module_name` stand for `resolve(request.path_info).func.__name__` and
`...__module__` (a deterministic function of the request path, modelled as
request data).  `has_wf_start` models `hasattr(request, 'wf_start_timestamp')`,
set by `process_view`. -/
structure Request where
  resolver_match : Option ResolverMatch
  method : String
  func_name : String
  module_name : String
  has_wf_start : Bool
deriving DecidableEq

/-- The slice of a Django response that the middleware reads. -/
structure Response where
  status_code : Nat
deriving DecidableEq

/-- Python `'.'.join` on a list of strings. -/
def joinDot : List String → String
  | [] => ""
  | [a] => a
  | a :: b :: rest => a ++ "." ++ joinDot (b :: rest)

/-- Python single-character `str.replace(a, b)`. -/
def pyReplace (s : String) (a b : Char) : String :=
  ⟨s.data.map (fun c => if c = a then b else c)⟩

/-- Python `str.lstrip('.')`: drop all leading `'.'` characters. -/
def pyLstripDot (s : String) : String :=
  ⟨s.data.dropWhile (fun c => c == '.')⟩

/-- Python `str.rstrip('.')`: drop all trailing `'.'` characters. -/
def pyRstripDot (s : String) : String :=
  ⟨(s.data.reverse.dropWhile (fun c => c == '.')).reverse⟩

/-- The `replace` chain of `get_entity_name`:
`.replace('-', '_').replace('/', '.').replace('\x7b', '_').replace('\x7d', '_')`
(the two brace characters are written via their `\x` codes). -/
def replace_route_chars (s : String) : String :=
  pyReplace (pyReplace (pyReplace (pyReplace s '-' '_') '/' '.') '\x7b' '_') '\x7d' '_'

/-- The full entity-name sanitization pipeline applied by `get_entity_name` to
a matched route name: the `replace` chain followed by
`.lstrip('.').rstrip('.')`. -/
def sanitize_entity_name (s : String) : String :=
  pyRstripDot (pyLstripDot (replace_route_chars s))

/-- `WavefrontMiddleware.get_entity_name`: route name from `url_name`, falling
back to `view_name` when `url_name` is falsy, sanitized; `'UNKNOWN'` when the
request has no `resolver_match`.  The final `.lstrip('.').rstrip('.')` of the
source applies to both branches. -/
def get_entity_name (request : Request) : String :=
  pyRstripDot (pyLstripDot
    (match request.resolver_match with
     | some resolver_match =>
         replace_route_chars
           (if pyTruthy resolver_match.url_name then
              resolver_match.url_name.getD ""
            else resolver_match.view_name)
     | none => "UNKNOWN"))

/-- `WavefrontMiddleware.get_metric_name`:
`'.'.join([prefix, entity_name, method] (+ [str(status_code)]))` with the
response prefix when a response is given and the request prefix otherwise. -/
def get_metric_name (entity_name : String) (request : Request)
    (response : Option Response) : String :=
  match response with
  | some res =>
      joinDot [RESPONSE_PREFIX_VAL, entity_name, request.method,
               toString res.status_code]
  | none => joinDot [REQUEST_PREFIX_VAL, entity_name, request.method]

/-- `WavefrontMiddleware.get_metric_name_without_status`:
`'.'.join([REQUEST_PREFIX, entity_name, method])`. -/
def get_metric_name_without_status (entity_name : String) (request : Request) :
    String :=
  joinDot [REQUEST_PREFIX_VAL, entity_name, request.method]

/-- `WavefrontMiddleware.is_error_status_code`: `400 <= status_code <= 599`. -/
def is_error_status_code (response : Response) : Bool :=
  decide (400 ≤ response.status_code ∧ response.status_code ≤ 599)

/-- A tag set as built by `get_tags_map`: an insertion-ordered association
list (Python dict with string keys and values). -/
abbrev TagMap := List (String × String)

/-- One optional entry of `get_tags_map`: the pair is added iff the value is
truthy. -/
def optTag (key : String) (value : Option String) : TagMap :=
  if pyTruthy value then [(key, value.getD "")] else []

/-- `WavefrontMiddleware.get_tags_map`: builds the tag dict, skipping every
falsy argument, in the source's insertion order.  All six arguments default to
`None` in the source; call sites here pass all of them explicitly. -/
def get_tags_map (cluster service shard module_name func_name source :
    Option String) : TagMap :=
  optTag "cluster" cluster ++ optTag "service" service ++
  optTag "shard" shard ++ optTag "django.resource.module" module_name ++
  optTag "django.resource.func" func_name ++ optTag "source" source

/-- One registry mutation performed by the middleware. -/
inductive Event where
  | gauge (name : String) (tags : TagMap) (val : Int)
  | counter (name : String) (tags : TagMap)
  | delta (name : String) (tags : TagMap)
  | hist (name : String) (tags : TagMap)
deriving DecidableEq

/-- The metric registry (`TaggedRegistry`): per-kind total maps keyed by
`(name, tags)`.  Counters and delta counters count increments; `hists` counts
recorded samples; `gauges` holds `none` (NaN) until first set. -/
structure Registry where
  gauges : String × TagMap → Option Int
  counters : String × TagMap → Nat
  deltas : String × TagMap → Nat
  hists : String × TagMap → Nat

/-- A fresh registry: no gauge ever set, all counts zero. -/
def emptyRegistry : Registry :=
  { gauges := fun _ => none
    counters := fun _ => 0
    deltas := fun _ => 0
    hists := fun _ => 0 }

/-- Point update of a total map. -/
def updateFn {α β : Type} [DecidableEq α] (f : α → β) (k : α) (v : β) :
    α → β :=
  fun k' => if k' = k then v else f k'

/-- `WavefrontMiddleware.update_gauge`: read the gauge (NaN, i.e. `none`,
counts as 0) and set it to the old value plus `val`. -/
def update_gauge (registry : Registry) (key : String) (tags : TagMap)
    (val : Int) : Registry :=
  let cur_val := (registry.gauges (key, tags)).getD 0
  { registry with
      gauges := updateFn registry.gauges (key, tags) (some (cur_val + val)) }

/-- Apply one mutation to the registry: gauges via `update_gauge`, counters and
delta counters via `.inc()`, histograms via `.add(...)` (sample counted). -/
def applyEvent (registry : Registry) : Event → Registry
  | Event.gauge name tags val => update_gauge registry name tags val
  | Event.counter name tags =>
      { registry with
          counters := updateFn registry.counters (name, tags)
            (registry.counters (name, tags) + 1) }
  | Event.delta name tags =>
      { registry with
          deltas := updateFn registry.deltas (name, tags)
            (registry.deltas (name, tags) + 1) }
  | Event.hist name tags =>
      { registry with
          hists := updateFn registry.hists (name, tags)
            (registry.hists (name, tags) + 1) }

/-- The middleware state set up by `WavefrontMiddleware.__init__`:
`MIDDLEWARE_ENABLED` plus the identity fields computed from
`APPLICATION_TAGS` on the success path (`self.APPLICATION = ... or
NULL_TAG_VAL`, etc.). -/
structure WavefrontMiddleware where
  MIDDLEWARE_ENABLED : Bool
  application_tags : ApplicationTags
  APPLICATION : String
  CLUSTER : String
  SERVICE : String
  SHARD : String
deriving DecidableEq

/-- The enabled middleware built from validated application tags, mirroring
lines 48–52 of `middleware.py`. -/
def enabledMiddleware (t : ApplicationTags) : WavefrontMiddleware :=
  { MIDDLEWARE_ENABLED := true
    application_tags := t
    APPLICATION := pyOr (some t.application) NULL_TAG_VAL
    CLUSTER := pyOr t.cluster NULL_TAG_VAL
    SERVICE := pyOr (some t.service) NULL_TAG_VAL
    SHARD := pyOr t.shard NULL_TAG_VAL }

/-- The disabled middleware (any configuration failure path of `__init__`). -/
def disabledMiddleware : WavefrontMiddleware :=
  { MIDDLEWARE_ENABLED := false
    application_tags :=
      { application := "", service := "", cluster := none, shard := none
        custom_tags := none }
    APPLICATION := ""
    CLUSTER := ""
    SERVICE := ""
    SHARD := "" }

/-- A value a configuration key can resolve to: instances of the three SDK
classes the `isinstance` checks accept, a plain string (what `os.environ`
yields), or anything else. -/
inductive ConfValue where
  | wavefrontReporter
  | applicationTagsVal (t : ApplicationTags)
  | djangoTracing (trace_all : Bool)
  | str (s : String)
  | other
deriving DecidableEq

/-- `WavefrontMiddleware.get_conf`: the Django `settings` attribute if
present, else the environment variable (a string), else `None`. -/
def get_conf (settings : String → Option ConfValue)
    (env : String → Option String) (key : String) : Option ConfValue :=
  match settings key with
  | some v => some v
  | none =>
      match env key with
      | some s => some (ConfValue.str s)
      | none => none

/-- `isinstance(x, WavefrontReporter)` on a `get_conf` result (`None` fails). -/
def isinstance_WavefrontReporter : Option ConfValue → Bool
  | some ConfValue.wavefrontReporter => true
  | _ => false

/-- `isinstance(x, ApplicationTags)` on a `get_conf` result. -/
def isinstance_ApplicationTags : Option ConfValue → Bool
  | some (ConfValue.applicationTagsVal _) => true
  | _ => false

/-- `isinstance(x, DjangoTracing)` on a `get_conf` result. -/
def isinstance_DjangoTracing : Option ConfValue → Bool
  | some (ConfValue.djangoTracing _) => true
  | _ => false

/-- `WavefrontMiddleware.__init__`: resolve the three configuration objects,
validate them with the `isinstance` checks, and either set up the enabled
middleware or (any raised `AttributeError` being caught) stay disabled for the
process lifetime.  Reporter/heartbeat side effects are external collaborators
and carry no registry state. -/
def WavefrontMiddleware.init (settings : String → Option ConfValue)
    (env : String → Option String) : WavefrontMiddleware :=
  let reporter := get_conf settings env "WF_REPORTER"
  let application_tags := get_conf settings env "APPLICATION_TAGS"
  let tracing := get_conf settings env "OPENTRACING_TRACING"
  match application_tags, isinstance_WavefrontReporter reporter,
        isinstance_DjangoTracing tracing with
  | some (ConfValue.applicationTagsVal t), true, true => enabledMiddleware t
  | _, _, _ => disabledMiddleware

/-- The two gauge increments of `process_view`, in source order. -/
def process_view_events (m : WavefrontMiddleware) (request : Request) :
    List Event :=
  let entity_name := get_entity_name request
  [Event.gauge (get_metric_name entity_name request none ++ ".inflight")
     (get_tags_map none none none (some request.module_name)
       (some request.func_name) none) 1,
   Event.gauge "total_requests.inflight"
     (get_tags_map (some m.CLUSTER) (some m.SERVICE) (some m.SHARD)
       none none none) 1]

/-- `WavefrontMiddleware.process_view`: no-op when disabled; otherwise records
the start timestamps on the request and increments the two inflight gauges.
The tracing tail of the source touches no metric state. -/
def process_view (m : WavefrontMiddleware) (registry : Registry)
    (request : Request) : Registry × Request :=
  if m.MIDDLEWARE_ENABLED = false then (registry, request)
  else
    let request := { request with has_wf_start := true }
    ((process_view_events m request).foldl applyEvent registry, request)

/-- All registry mutations of `WavefrontMiddleware.process_response` on the
enabled path, in source order: the two inflight gauge decrements, the
per-status rollup block, the error block (gated on `is_error_status_code`),
the completion block, and the two histogram samples (gated on
`hasattr(request, 'wf_start_timestamp')`). -/
def process_response_events (m : WavefrontMiddleware) (request : Request)
    (response : Response) : List Event :=
  let entity_name := get_entity_name request
  let func_name := request.func_name
  let module_name := request.module_name
  let response_metric_key := get_metric_name entity_name request (some response)
  let complete_tags_map :=
    get_tags_map (some m.CLUSTER) (some m.SERVICE) (some m.SHARD)
      (some module_name) (some func_name) none
  let aggregated_per_shard_map :=
    get_tags_map (some m.CLUSTER) (some m.SERVICE) (some m.SHARD)
      (some module_name) (some func_name) (some WAVEFRONT_PROVIDED_SOURCE)
  let overall_aggregated_per_source_map :=
    get_tags_map (some m.CLUSTER) (some m.SERVICE) (some m.SHARD)
      none none none
  let overall_aggregated_per_shard_map :=
    get_tags_map (some m.CLUSTER) (some m.SERVICE) (some m.SHARD)
      none none (some WAVEFRONT_PROVIDED_SOURCE)
  let aggregated_per_service_map :=
    get_tags_map (some m.CLUSTER) (some m.SERVICE) none
      (some module_name) (some func_name) (some WAVEFRONT_PROVIDED_SOURCE)
  let overall_aggregated_per_service_map :=
    get_tags_map (some m.CLUSTER) (some m.SERVICE) none
      none none (some WAVEFRONT_PROVIDED_SOURCE)
  let aggregated_per_cluster_map :=
    get_tags_map (some m.CLUSTER) none none
      (some module_name) (some func_name) (some WAVEFRONT_PROVIDED_SOURCE)
  let overall_aggregated_per_cluster_map :=
    get_tags_map (some m.CLUSTER) none none
      none none (some WAVEFRONT_PROVIDED_SOURCE)
  let aggregated_per_application_map :=
    get_tags_map none none none
      (some module_name) (some func_name) (some WAVEFRONT_PROVIDED_SOURCE)
  let overall_aggregated_per_application_map :=
    get_tags_map none none none none none (some WAVEFRONT_PROVIDED_SOURCE)
  [Event.gauge (get_metric_name entity_name request none ++ ".inflight")
     (get_tags_map none none none (some module_name) (some func_name) none)
     (-1),
   Event.gauge "total_requests.inflight"
     (get_tags_map (some m.CLUSTER) (some m.SERVICE) (some m.SHARD)
       none none none) (-1),
   Event.counter (response_metric_key ++ ".cumulative") complete_tags_map]
  ++ (if pyTruthy m.application_tags.shard then
        [Event.delta (response_metric_key ++ ".aggregated_per_shard")
           aggregated_per_shard_map]
      else [])
  ++ [Event.delta (response_metric_key ++ ".aggregated_per_service")
        aggregated_per_service_map]
  ++ (if pyTruthy m.application_tags.cluster then
        [Event.delta (response_metric_key ++ ".aggregated_per_cluster")
           aggregated_per_cluster_map]
      else [])
  ++ [Event.delta (response_metric_key ++ ".aggregated_per_application")
        aggregated_per_application_map]
  ++ (if is_error_status_code response then
        [Event.counter (get_metric_name_without_status entity_name request)
           complete_tags_map,
         Event.counter "response.errors" complete_tags_map,
         Event.counter "response.errors.aggregated_per_source"
           overall_aggregated_per_source_map]
        ++ (if pyTruthy m.application_tags.shard then
              [Event.delta "response.errors.aggregated_per_shard"
                 overall_aggregated_per_shard_map]
            else [])
        ++ [Event.delta "response.errors.aggregated_per_service"
              overall_aggregated_per_service_map]
        ++ (if pyTruthy m.application_tags.cluster then
              [Event.delta "response.errors.aggregated_per_cluster"
                 overall_aggregated_per_cluster_map]
            else [])
        ++ [Event.delta "response.errors.aggregated_per_application"
              overall_aggregated_per_application_map]
      else [])
  ++ [Event.counter "response.completed.aggregated_per_source"
        overall_aggregated_per_source_map]
  ++ (if m.SHARD ≠ NULL_TAG_VAL then
        [Event.delta "response.completed.aggregated_per_shard"
           overall_aggregated_per_shard_map,
         Event.counter "response.completed.aggregated_per_service"
           overall_aggregated_per_service_map]
      else [])
  ++ (if m.CLUSTER ≠ NULL_TAG_VAL then
        [Event.delta "response.completed.aggregated_per_cluster"
           overall_aggregated_per_cluster_map,
         Event.counter "response.completed.aggregated_per_application"
           overall_aggregated_per_application_map]
      else [])
  ++ (if request.has_wf_start then
        [Event.hist (response_metric_key ++ ".latency") complete_tags_map,
         Event.hist (response_metric_key ++ ".cpu_ns") complete_tags_map]
      else [])

/-- `WavefrontMiddleware.process_response`: returns the response unchanged;
when disabled, the registry is untouched, otherwise all mutations of
`process_response_events` are applied. -/
def process_response (m : WavefrontMiddleware) (registry : Registry)
    (request : Request) (response : Response) : Registry × Response :=
  if m.MIDDLEWARE_ENABLED = false then (registry, response)
  else ((process_response_events m request response).foldl applyEvent registry,
        response)

/-- The name carried by an event. -/
def eventName : Event → String
  | Event.gauge name _ _ => name
  | Event.counter name _ => name
  | Event.delta name _ => name
  | Event.hist name _ => name

/-- The tag map carried by an event. -/
def eventTags : Event → TagMap
  | Event.gauge _ tags _ => tags
  | Event.counter _ tags => tags
  | Event.delta _ tags => tags
  | Event.hist _ tags => tags

/-- Whether an event is a cumulative-counter increment with the given name. -/
def isCounterNamed (n : String) : Event → Bool
  | Event.counter name _ => name == n
  | _ => false

/-- Whether an event is a delta-counter increment with the given name. -/
def isDeltaNamed (n : String) : Event → Bool
  | Event.delta name _ => name == n
  | _ => false

/-- Number of cumulative-counter increments with the given name in an event
list. -/
def countCounter (evs : List Event) (n : String) : Nat :=
  evs.countP (isCounterNamed n)

/-- Number of delta-counter increments with the given name in an event list. -/
def countDelta (evs : List Event) (n : String) : Nat :=
  evs.countP (isDeltaNamed n)

/-- Gauge value at a key as the middleware reads it (NaN counts as 0). -/
def readGauge (registry : Registry) (k : String × TagMap) : Int :=
  (registry.gauges k).getD 0

/-- Contribution of one event to the gauge at key `k`. -/
def gaugeContrib (k : String × TagMap) : Event → Int
  | Event.gauge name tags val => if k = (name, tags) then val else 0
  | _ => 0

/-- The registry key of the per-entity inflight gauge touched by both hooks. -/
def entityInflightKey (request : Request) : String × TagMap :=
  (get_metric_name (get_entity_name request) request none ++ ".inflight",
   get_tags_map none none none (some request.module_name)
     (some request.func_name) none)

/-- The registry key of the `total_requests.inflight` gauge. -/
def totalInflightKey (m : WavefrontMiddleware) : String × TagMap :=
  ("total_requests.inflight",
   get_tags_map (some m.CLUSTER) (some m.SERVICE) (some m.SHARD)
     none none none)

/-- Number of `'.'` characters in a string (used to separate metric names
whose dotted depth differs). -/
def dotCount (s : String) : Nat := s.data.count '.'

/-- Sum of the gauge contributions of a list of events at key `k`. -/
def gaugeSum (k : String × TagMap) (evs : List Event) : Int :=
  (evs.map (gaugeContrib k)).sum

/- ### Helper lemmas: strings and metric-name apartness -/

theorem string_eq_of_data {a b : String} (h : a.data = b.data) : a = b :=
  String.ext h

theorem string_append_left_cancel {a b c : String} (h : a ++ b = a ++ c) :
    b = c := by
  apply string_eq_of_data
  have hd := congrArg String.data h
  rw [String.data_append, String.data_append] at hd
  exact List.append_cancel_left hd

theorem string_append_ne_right (a : String) {b c : String} (h : b ≠ c) :
    a ++ b ≠ a ++ c :=
  fun e => h (string_append_left_cancel e)

theorem string_prefix_ne {p q : String} (x y : String)
    (hl : p.data.length = q.data.length) (h : p.data ≠ q.data) :
    p ++ x ≠ q ++ y := by
  intro e
  have hd := congrArg String.data e
  rw [String.data_append, String.data_append] at hd
  exact h (List.append_inj_left hd hl)

theorem dotCount_append (a b : String) :
    dotCount (a ++ b) = dotCount a + dotCount b := by
  cases a with
  | mk la =>
    cases b with
    | mk lb => simp [dotCount, String.data_append, List.count_append]

theorem ne_of_dotCount {a b : String} (h : dotCount a ≠ dotCount b) : a ≠ b :=
  fun e => h (by rw [e])

theorem dotCount_dot : dotCount "." = 1 := by decide

theorem dotCount_joinDot4 (a b c d : String) :
    dotCount (joinDot [a, b, c, d]) =
      dotCount a + dotCount b + dotCount c + dotCount d + 3 := by
  simp only [joinDot, dotCount_append, dotCount_dot]
  omega

/-- A response-family per-status metric name (`response.<entity>.<method>.
<status>` plus a suffix) has strictly more dots than 3 plus the suffix's
dots, so it differs from any literal with fewer dots. -/
theorem respKey_suffix_ne_lit (e meth s suf lit : String)
    (h : dotCount lit < dotCount suf + 3) :
    joinDot [RESPONSE_PREFIX_VAL, e, meth, s] ++ suf ≠ lit := by
  apply ne_of_dotCount
  rw [dotCount_append, dotCount_joinDot4]
  have h0 : dotCount RESPONSE_PREFIX_VAL = 0 := by decide
  omega

theorem ne_of_data_prefix {a b : String} {l₁ l₂ r₁ r₂ : List Char}
    (ha : a.data = l₁ ++ r₁) (hb : b.data = l₂ ++ r₂)
    (hl : l₁.length = l₂.length) (h : l₁ ≠ l₂) : a ≠ b := by
  intro e
  rw [e, hb] at ha
  exact h (List.append_inj_left ha.symm hl)

theorem reqKey_data (e meth : String) :
    (joinDot [REQUEST_PREFIX_VAL, e, meth]).data =
      "requ".data ++ ("est" ++ ("." ++ (e ++ ("." ++ meth)))).data := by
  simp [joinDot, String.data_append, REQUEST_PREFIX_VAL, List.append_assoc]

theorem respKey_suffix_data (e meth s suf : String) :
    (joinDot [RESPONSE_PREFIX_VAL, e, meth, s] ++ suf).data =
      "resp".data ++
        ("onse" ++ ("." ++ (e ++ ("." ++ (meth ++ ("." ++ (s ++ suf))))))).data := by
  simp [joinDot, String.data_append, RESPONSE_PREFIX_VAL, List.append_assoc]

/-- A request-prefixed metric name never equals a response-prefixed one. -/
theorem reqKey_ne_respKey_suffix (e meth e' meth' s' suf : String) :
    joinDot [REQUEST_PREFIX_VAL, e, meth] ≠
      joinDot [RESPONSE_PREFIX_VAL, e', meth', s'] ++ suf :=
  ne_of_data_prefix (reqKey_data e meth) (respKey_suffix_data e' meth' s' suf)
    (by decide) (by decide)

/-- A request-prefixed metric name never equals a `resp...`-headed literal. -/
theorem reqKey_ne_resp_lit (e meth L tail : String)
    (hb : L.data = "resp".data ++ tail.data) :
    joinDot [REQUEST_PREFIX_VAL, e, meth] ≠ L :=
  ne_of_data_prefix (reqKey_data e meth) hb (by decide) (by decide)

/- ### Counting lemmas over the response event list -/

theorem countCounter_response_errors (t : ApplicationTags) (request : Request)
    (response : Response) :
    countCounter (process_response_events (enabledMiddleware t) request response)
      "response.errors" = if is_error_status_code response then 1 else 0 := by
  have h1 : (joinDot [RESPONSE_PREFIX_VAL, get_entity_name request,
      request.method, toString response.status_code] ++ ".cumulative")
      ≠ "response.errors" :=
    respKey_suffix_ne_lit _ _ _ _ _ (by decide)
  have h2 : joinDot [REQUEST_PREFIX_VAL, get_entity_name request,
      request.method] ≠ "response.errors" :=
    reqKey_ne_resp_lit _ _ _ "onse.errors" (by decide)
  have b1 := beq_eq_false_iff_ne.mpr h1
  have b2 := beq_eq_false_iff_ne.mpr h2
  have b3 : (("response.errors.aggregated_per_source" : String) ==
      "response.errors") = false := by decide
  have b4 : (("response.completed.aggregated_per_source" : String) ==
      "response.errors") = false := by decide
  have b5 : (("response.completed.aggregated_per_service" : String) ==
      "response.errors") = false := by decide
  have b6 : (("response.completed.aggregated_per_application" : String) ==
      "response.errors") = false := by decide
  have b7 : (("response.errors" : String) == "response.errors") = true := by
    decide
  simp [countCounter, process_response_events, get_metric_name,
    get_metric_name_without_status, List.countP_append, List.countP_cons,
    isCounterNamed, apply_ite (List.countP (isCounterNamed "response.errors")),
    b1, b2, b3, b4, b5, b6, b7]

/-- The completed-block gate `self.SHARD is not NULL_TAG_VAL` (with
`self.SHARD = shard or NULL_TAG_VAL`) holds exactly when the configured field
is truthy. -/
theorem pyOr_null_ne (x : Option String) :
    (pyOr x NULL_TAG_VAL ≠ NULL_TAG_VAL) ↔ pyTruthy x = true := by
  cases x with
  | none => simp [pyOr, pyTruthy, NULL_TAG_VAL]
  | some s =>
    cases h : s == "" with
    | true =>
      simp [pyOr, pyTruthy, NULL_TAG_VAL, h]
    | false =>
      simp [pyOr, pyTruthy, NULL_TAG_VAL, h, beq_eq_false_iff_ne.mp h]

theorem countCounter_errors_per_source (t : ApplicationTags)
    (request : Request) (response : Response) :
    countCounter (process_response_events (enabledMiddleware t) request response)
      "response.errors.aggregated_per_source" =
      if is_error_status_code response then 1 else 0 := by
  have h1 : (joinDot [RESPONSE_PREFIX_VAL, get_entity_name request,
      request.method, toString response.status_code] ++ ".cumulative")
      ≠ "response.errors.aggregated_per_source" :=
    respKey_suffix_ne_lit _ _ _ _ _ (by decide)
  have h2 : joinDot [REQUEST_PREFIX_VAL, get_entity_name request,
      request.method] ≠ "response.errors.aggregated_per_source" :=
    reqKey_ne_resp_lit _ _ _ "onse.errors.aggregated_per_source" (by decide)
  have b1 := beq_eq_false_iff_ne.mpr h1
  have b2 := beq_eq_false_iff_ne.mpr h2
  have b3 : (("response.errors" : String) ==
      "response.errors.aggregated_per_source") = false := by decide
  have b4 : (("response.completed.aggregated_per_source" : String) ==
      "response.errors.aggregated_per_source") = false := by decide
  have b5 : (("response.completed.aggregated_per_service" : String) ==
      "response.errors.aggregated_per_source") = false := by decide
  have b6 : (("response.completed.aggregated_per_application" : String) ==
      "response.errors.aggregated_per_source") = false := by decide
  have b7 : (("response.errors.aggregated_per_source" : String) ==
      "response.errors.aggregated_per_source") = true := by decide
  simp [countCounter, process_response_events, get_metric_name,
    get_metric_name_without_status, List.countP_append, List.countP_cons,
    isCounterNamed,
    apply_ite (List.countP (isCounterNamed
      "response.errors.aggregated_per_source")),
    b1, b2, b3, b4, b5, b6, b7]

theorem countCounter_completed_per_source (t : ApplicationTags)
    (request : Request) (response : Response) :
    countCounter (process_response_events (enabledMiddleware t) request response)
      "response.completed.aggregated_per_source" = 1 := by
  have h1 : (joinDot [RESPONSE_PREFIX_VAL, get_entity_name request,
      request.method, toString response.status_code] ++ ".cumulative")
      ≠ "response.completed.aggregated_per_source" :=
    respKey_suffix_ne_lit _ _ _ _ _ (by decide)
  have h2 : joinDot [REQUEST_PREFIX_VAL, get_entity_name request,
      request.method] ≠ "response.completed.aggregated_per_source" :=
    reqKey_ne_resp_lit _ _ _ "onse.completed.aggregated_per_source" (by decide)
  have b1 := beq_eq_false_iff_ne.mpr h1
  have b2 := beq_eq_false_iff_ne.mpr h2
  have b3 : (("response.errors" : String) ==
      "response.completed.aggregated_per_source") = false := by decide
  have b4 : (("response.errors.aggregated_per_source" : String) ==
      "response.completed.aggregated_per_source") = false := by decide
  have b5 : (("response.completed.aggregated_per_service" : String) ==
      "response.completed.aggregated_per_source") = false := by decide
  have b6 : (("response.completed.aggregated_per_application" : String) ==
      "response.completed.aggregated_per_source") = false := by decide
  have b7 : (("response.completed.aggregated_per_source" : String) ==
      "response.completed.aggregated_per_source") = true := by decide
  simp [countCounter, process_response_events, get_metric_name,
    get_metric_name_without_status, List.countP_append, List.countP_cons,
    isCounterNamed,
    apply_ite (List.countP (isCounterNamed
      "response.completed.aggregated_per_source")),
    b1, b2, b3, b4, b5, b6, b7]

theorem countCounter_completed_per_service (t : ApplicationTags)
    (request : Request) (response : Response) :
    countCounter (process_response_events (enabledMiddleware t) request response)
      "response.completed.aggregated_per_service" =
      if pyTruthy t.shard then 1 else 0 := by
  have h1 : (joinDot [RESPONSE_PREFIX_VAL, get_entity_name request,
      request.method, toString response.status_code] ++ ".cumulative")
      ≠ "response.completed.aggregated_per_service" :=
    respKey_suffix_ne_lit _ _ _ _ _ (by decide)
  have h2 : joinDot [REQUEST_PREFIX_VAL, get_entity_name request,
      request.method] ≠ "response.completed.aggregated_per_service" :=
    reqKey_ne_resp_lit _ _ _ "onse.completed.aggregated_per_service" (by decide)
  have b1 := beq_eq_false_iff_ne.mpr h1
  have b2 := beq_eq_false_iff_ne.mpr h2
  have b3 : (("response.errors" : String) ==
      "response.completed.aggregated_per_service") = false := by decide
  have b4 : (("response.errors.aggregated_per_source" : String) ==
      "response.completed.aggregated_per_service") = false := by decide
  have b5 : (("response.completed.aggregated_per_source" : String) ==
      "response.completed.aggregated_per_service") = false := by decide
  have b6 : (("response.completed.aggregated_per_application" : String) ==
      "response.completed.aggregated_per_service") = false := by decide
  have b7 : (("response.completed.aggregated_per_service" : String) ==
      "response.completed.aggregated_per_service") = true := by decide
  simp [countCounter, process_response_events, get_metric_name,
    get_metric_name_without_status, List.countP_append, List.countP_cons,
    isCounterNamed, enabledMiddleware, pyOr_null_ne,
    apply_ite (List.countP (isCounterNamed
      "response.completed.aggregated_per_service")),
    b1, b2, b3, b4, b5, b6, b7]

theorem countCounter_completed_per_application (t : ApplicationTags)
    (request : Request) (response : Response) :
    countCounter (process_response_events (enabledMiddleware t) request response)
      "response.completed.aggregated_per_application" =
      if pyTruthy t.cluster then 1 else 0 := by
  have h1 : (joinDot [RESPONSE_PREFIX_VAL, get_entity_name request,
      request.method, toString response.status_code] ++ ".cumulative")
      ≠ "response.completed.aggregated_per_application" :=
    respKey_suffix_ne_lit _ _ _ _ _ (by decide)
  have h2 : joinDot [REQUEST_PREFIX_VAL, get_entity_name request,
      request.method] ≠ "response.completed.aggregated_per_application" :=
    reqKey_ne_resp_lit _ _ _ "onse.completed.aggregated_per_application"
      (by decide)
  have b1 := beq_eq_false_iff_ne.mpr h1
  have b2 := beq_eq_false_iff_ne.mpr h2
  have b3 : (("response.errors" : String) ==
      "response.completed.aggregated_per_application") = false := by decide
  have b4 : (("response.errors.aggregated_per_source" : String) ==
      "response.completed.aggregated_per_application") = false := by decide
  have b5 : (("response.completed.aggregated_per_source" : String) ==
      "response.completed.aggregated_per_application") = false := by decide
  have b6 : (("response.completed.aggregated_per_service" : String) ==
      "response.completed.aggregated_per_application") = false := by decide
  have b7 : (("response.completed.aggregated_per_application" : String) ==
      "response.completed.aggregated_per_application") = true := by decide
  simp [countCounter, process_response_events, get_metric_name,
    get_metric_name_without_status, List.countP_append, List.countP_cons,
    isCounterNamed, enabledMiddleware, pyOr_null_ne,
    apply_ite (List.countP (isCounterNamed
      "response.completed.aggregated_per_application")),
    b1, b2, b3, b4, b5, b6, b7]

theorem countDelta_respKey_per_shard (t : ApplicationTags) (request : Request)
    (response : Response) :
    countDelta (process_response_events (enabledMiddleware t) request response)
      (get_metric_name (get_entity_name request) request (some response) ++
        ".aggregated_per_shard") =
      if pyTruthy t.shard then 1 else 0 := by
  have ha1 : joinDot [RESPONSE_PREFIX_VAL, get_entity_name request,
      request.method, toString response.status_code] ++
      ".aggregated_per_service" ≠
      joinDot [RESPONSE_PREFIX_VAL, get_entity_name request, request.method,
      toString response.status_code] ++ ".aggregated_per_shard" :=
    string_append_ne_right _ (by decide)
  have ha2 : joinDot [RESPONSE_PREFIX_VAL, get_entity_name request,
      request.method, toString response.status_code] ++
      ".aggregated_per_cluster" ≠
      joinDot [RESPONSE_PREFIX_VAL, get_entity_name request, request.method,
      toString response.status_code] ++ ".aggregated_per_shard" :=
    string_append_ne_right _ (by decide)
  have ha3 : joinDot [RESPONSE_PREFIX_VAL, get_entity_name request,
      request.method, toString response.status_code] ++
      ".aggregated_per_application" ≠
      joinDot [RESPONSE_PREFIX_VAL, get_entity_name request, request.method,
      toString response.status_code] ++ ".aggregated_per_shard" :=
    string_append_ne_right _ (by decide)
  have hl1 : joinDot [RESPONSE_PREFIX_VAL, get_entity_name request,
      request.method, toString response.status_code] ++
      ".aggregated_per_shard" ≠ "response.errors.aggregated_per_shard" :=
    respKey_suffix_ne_lit _ _ _ _ _ (by decide)
  have hl2 : joinDot [RESPONSE_PREFIX_VAL, get_entity_name request,
      request.method, toString response.status_code] ++
      ".aggregated_per_shard" ≠ "response.errors.aggregated_per_service" :=
    respKey_suffix_ne_lit _ _ _ _ _ (by decide)
  have hl3 : joinDot [RESPONSE_PREFIX_VAL, get_entity_name request,
      request.method, toString response.status_code] ++
      ".aggregated_per_shard" ≠ "response.errors.aggregated_per_cluster" :=
    respKey_suffix_ne_lit _ _ _ _ _ (by decide)
  have hl4 : joinDot [RESPONSE_PREFIX_VAL, get_entity_name request,
      request.method, toString response.status_code] ++
      ".aggregated_per_shard" ≠ "response.errors.aggregated_per_application" :=
    respKey_suffix_ne_lit _ _ _ _ _ (by decide)
  have hl5 : joinDot [RESPONSE_PREFIX_VAL, get_entity_name request,
      request.method, toString response.status_code] ++
      ".aggregated_per_shard" ≠ "response.completed.aggregated_per_shard" :=
    respKey_suffix_ne_lit _ _ _ _ _ (by decide)
  have hl6 : joinDot [RESPONSE_PREFIX_VAL, get_entity_name request,
      request.method, toString response.status_code] ++
      ".aggregated_per_shard" ≠ "response.completed.aggregated_per_cluster" :=
    respKey_suffix_ne_lit _ _ _ _ _ (by decide)
  have b1 := beq_eq_false_iff_ne.mpr ha1
  have b2 := beq_eq_false_iff_ne.mpr ha2
  have b3 := beq_eq_false_iff_ne.mpr ha3
  have b4 := beq_eq_false_iff_ne.mpr hl1.symm
  have b5 := beq_eq_false_iff_ne.mpr hl2.symm
  have b6 := beq_eq_false_iff_ne.mpr hl3.symm
  have b7 := beq_eq_false_iff_ne.mpr hl4.symm
  have b8 := beq_eq_false_iff_ne.mpr hl5.symm
  have b9 := beq_eq_false_iff_ne.mpr hl6.symm
  simp [countDelta, process_response_events, get_metric_name,
    get_metric_name_without_status, List.countP_append, List.countP_cons,
    isDeltaNamed, enabledMiddleware, pyOr_null_ne,
    apply_ite (List.countP (isDeltaNamed
      (joinDot [RESPONSE_PREFIX_VAL, get_entity_name request, request.method,
        toString response.status_code] ++ ".aggregated_per_shard"))),
    b1, b2, b3, b4, b5, b6, b7, b8, b9]

theorem countDelta_respKey_per_cluster (t : ApplicationTags) (request : Request)
    (response : Response) :
    countDelta (process_response_events (enabledMiddleware t) request response)
      (get_metric_name (get_entity_name request) request (some response) ++
        ".aggregated_per_cluster") =
      if pyTruthy t.cluster then 1 else 0 := by
  have ha1 : joinDot [RESPONSE_PREFIX_VAL, get_entity_name request,
      request.method, toString response.status_code] ++
      ".aggregated_per_shard" ≠
      joinDot [RESPONSE_PREFIX_VAL, get_entity_name request,
      request.method, toString response.status_code] ++ ".aggregated_per_cluster" :=
    string_append_ne_right _ (by decide)
  have ha2 : joinDot [RESPONSE_PREFIX_VAL, get_entity_name request,
      request.method, toString response.status_code] ++
      ".aggregated_per_service" ≠
      joinDot [RESPONSE_PREFIX_VAL, get_entity_name request,
      request.method, toString response.status_code] ++ ".aggregated_per_cluster" :=
    string_append_ne_right _ (by decide)
  have ha3 : joinDot [RESPONSE_PREFIX_VAL, get_entity_name request,
      request.method, toString response.status_code] ++
      ".aggregated_per_application" ≠
      joinDot [RESPONSE_PREFIX_VAL, get_entity_name request,
      request.method, toString response.status_code] ++ ".aggregated_per_cluster" :=
    string_append_ne_right _ (by decide)
  have hl1 : joinDot [RESPONSE_PREFIX_VAL, get_entity_name request,
      request.method, toString response.status_code] ++
      ".aggregated_per_cluster" ≠ "response.errors.aggregated_per_shard" :=
    respKey_suffix_ne_lit _ _ _ _ _ (by decide)
  have hl2 : joinDot [RESPONSE_PREFIX_VAL, get_entity_name request,
      request.method, toString response.status_code] ++
      ".aggregated_per_cluster" ≠ "response.errors.aggregated_per_service" :=
    respKey_suffix_ne_lit _ _ _ _ _ (by decide)
  have hl3 : joinDot [RESPONSE_PREFIX_VAL, get_entity_name request,
      request.method, toString response.status_code] ++
      ".aggregated_per_cluster" ≠ "response.errors.aggregated_per_cluster" :=
    respKey_suffix_ne_lit _ _ _ _ _ (by decide)
  have hl4 : joinDot [RESPONSE_PREFIX_VAL, get_entity_name request,
      request.method, toString response.status_code] ++
      ".aggregated_per_cluster" ≠ "response.errors.aggregated_per_application" :=
    respKey_suffix_ne_lit _ _ _ _ _ (by decide)
  have hl5 : joinDot [RESPONSE_PREFIX_VAL, get_entity_name request,
      request.method, toString response.status_code] ++
      ".aggregated_per_cluster" ≠ "response.completed.aggregated_per_shard" :=
    respKey_suffix_ne_lit _ _ _ _ _ (by decide)
  have hl6 : joinDot [RESPONSE_PREFIX_VAL, get_entity_name request,
      request.method, toString response.status_code] ++
      ".aggregated_per_cluster" ≠ "response.completed.aggregated_per_cluster" :=
    respKey_suffix_ne_lit _ _ _ _ _ (by decide)
  have b1 := beq_eq_false_iff_ne.mpr ha1
  have b2 := beq_eq_false_iff_ne.mpr ha2
  have b3 := beq_eq_false_iff_ne.mpr ha3
  have b4 := beq_eq_false_iff_ne.mpr hl1.symm
  have b5 := beq_eq_false_iff_ne.mpr hl2.symm
  have b6 := beq_eq_false_iff_ne.mpr hl3.symm
  have b7 := beq_eq_false_iff_ne.mpr hl4.symm
  have b8 := beq_eq_false_iff_ne.mpr hl5.symm
  have b9 := beq_eq_false_iff_ne.mpr hl6.symm
  simp [countDelta, process_response_events, get_metric_name,
    get_metric_name_without_status, List.countP_append, List.countP_cons,
    isDeltaNamed, enabledMiddleware, pyOr_null_ne,
    apply_ite (List.countP (isDeltaNamed
      (joinDot [RESPONSE_PREFIX_VAL, get_entity_name request,
      request.method, toString response.status_code] ++ ".aggregated_per_cluster"))),
    b1, b2, b3, b4, b5, b6, b7, b8, b9]

theorem countDelta_errors_per_shard (t : ApplicationTags) (request : Request)
    (response : Response) :
    countDelta (process_response_events (enabledMiddleware t) request response)
      "response.errors.aggregated_per_shard" =
      if is_error_status_code response then
        (if pyTruthy t.shard then 1 else 0) else 0 := by
  have ha1 : joinDot [RESPONSE_PREFIX_VAL, get_entity_name request,
      request.method, toString response.status_code] ++
      ".aggregated_per_shard" ≠ "response.errors.aggregated_per_shard" :=
    respKey_suffix_ne_lit _ _ _ _ _ (by decide)
  have ha2 : joinDot [RESPONSE_PREFIX_VAL, get_entity_name request,
      request.method, toString response.status_code] ++
      ".aggregated_per_service" ≠ "response.errors.aggregated_per_shard" :=
    respKey_suffix_ne_lit _ _ _ _ _ (by decide)
  have ha3 : joinDot [RESPONSE_PREFIX_VAL, get_entity_name request,
      request.method, toString response.status_code] ++
      ".aggregated_per_cluster" ≠ "response.errors.aggregated_per_shard" :=
    respKey_suffix_ne_lit _ _ _ _ _ (by decide)
  have ha4 : joinDot [RESPONSE_PREFIX_VAL, get_entity_name request,
      request.method, toString response.status_code] ++
      ".aggregated_per_application" ≠ "response.errors.aggregated_per_shard" :=
    respKey_suffix_ne_lit _ _ _ _ _ (by decide)
  have hl1 : (("response.errors.aggregated_per_service" : String) ==
      "response.errors.aggregated_per_shard") = false := by decide
  have hl2 : (("response.errors.aggregated_per_cluster" : String) ==
      "response.errors.aggregated_per_shard") = false := by decide
  have hl3 : (("response.errors.aggregated_per_application" : String) ==
      "response.errors.aggregated_per_shard") = false := by decide
  have hl4 : (("response.completed.aggregated_per_shard" : String) ==
      "response.errors.aggregated_per_shard") = false := by decide
  have hl5 : (("response.completed.aggregated_per_cluster" : String) ==
      "response.errors.aggregated_per_shard") = false := by decide
  have bt : (("response.errors.aggregated_per_shard" : String) ==
      "response.errors.aggregated_per_shard") = true := by decide
  have b1 := beq_eq_false_iff_ne.mpr ha1
  have b2 := beq_eq_false_iff_ne.mpr ha2
  have b3 := beq_eq_false_iff_ne.mpr ha3
  have b4 := beq_eq_false_iff_ne.mpr ha4
  have b5 := hl1
  have b6 := hl2
  have b7 := hl3
  have b8 := hl4
  have b9 := hl5
  have b10 := bt
  simp [countDelta, process_response_events, get_metric_name,
    get_metric_name_without_status, List.countP_append, List.countP_cons,
    isDeltaNamed, enabledMiddleware, pyOr_null_ne,
    apply_ite (List.countP (isDeltaNamed "response.errors.aggregated_per_shard")),
    b1, b2, b3, b4, b5, b6, b7, b8, b9, b10]

theorem countDelta_errors_per_cluster (t : ApplicationTags) (request : Request)
    (response : Response) :
    countDelta (process_response_events (enabledMiddleware t) request response)
      "response.errors.aggregated_per_cluster" =
      if is_error_status_code response then
        (if pyTruthy t.cluster then 1 else 0) else 0 := by
  have ha1 : joinDot [RESPONSE_PREFIX_VAL, get_entity_name request,
      request.method, toString response.status_code] ++
      ".aggregated_per_shard" ≠ "response.errors.aggregated_per_cluster" :=
    respKey_suffix_ne_lit _ _ _ _ _ (by decide)
  have ha2 : joinDot [RESPONSE_PREFIX_VAL, get_entity_name request,
      request.method, toString response.status_code] ++
      ".aggregated_per_service" ≠ "response.errors.aggregated_per_cluster" :=
    respKey_suffix_ne_lit _ _ _ _ _ (by decide)
  have ha3 : joinDot [RESPONSE_PREFIX_VAL, get_entity_name request,
      request.method, toString response.status_code] ++
      ".aggregated_per_cluster" ≠ "response.errors.aggregated_per_cluster" :=
    respKey_suffix_ne_lit _ _ _ _ _ (by decide)
  have ha4 : joinDot [RESPONSE_PREFIX_VAL, get_entity_name request,
      request.method, toString response.status_code] ++
      ".aggregated_per_application" ≠ "response.errors.aggregated_per_cluster" :=
    respKey_suffix_ne_lit _ _ _ _ _ (by decide)
  have hl1 : (("response.errors.aggregated_per_shard" : String) ==
      "response.errors.aggregated_per_cluster") = false := by decide
  have hl2 : (("response.errors.aggregated_per_service" : String) ==
      "response.errors.aggregated_per_cluster") = false := by decide
  have hl3 : (("response.errors.aggregated_per_application" : String) ==
      "response.errors.aggregated_per_cluster") = false := by decide
  have hl4 : (("response.completed.aggregated_per_shard" : String) ==
      "response.errors.aggregated_per_cluster") = false := by decide
  have hl5 : (("response.completed.aggregated_per_cluster" : String) ==
      "response.errors.aggregated_per_cluster") = false := by decide
  have bt : (("response.errors.aggregated_per_cluster" : String) ==
      "response.errors.aggregated_per_cluster") = true := by decide
  have b1 := beq_eq_false_iff_ne.mpr ha1
  have b2 := beq_eq_false_iff_ne.mpr ha2
  have b3 := beq_eq_false_iff_ne.mpr ha3
  have b4 := beq_eq_false_iff_ne.mpr ha4
  have b5 := hl1
  have b6 := hl2
  have b7 := hl3
  have b8 := hl4
  have b9 := hl5
  have b10 := bt
  simp [countDelta, process_response_events, get_metric_name,
    get_metric_name_without_status, List.countP_append, List.countP_cons,
    isDeltaNamed, enabledMiddleware, pyOr_null_ne,
    apply_ite (List.countP (isDeltaNamed "response.errors.aggregated_per_cluster")),
    b1, b2, b3, b4, b5, b6, b7, b8, b9, b10]

theorem countDelta_completed_per_shard (t : ApplicationTags) (request : Request)
    (response : Response) :
    countDelta (process_response_events (enabledMiddleware t) request response)
      "response.completed.aggregated_per_shard" =
      if pyTruthy t.shard then 1 else 0 := by
  have ha1 : joinDot [RESPONSE_PREFIX_VAL, get_entity_name request,
      request.method, toString response.status_code] ++
      ".aggregated_per_shard" ≠ "response.completed.aggregated_per_shard" :=
    respKey_suffix_ne_lit _ _ _ _ _ (by decide)
  have ha2 : joinDot [RESPONSE_PREFIX_VAL, get_entity_name request,
      request.method, toString response.status_code] ++
      ".aggregated_per_service" ≠ "response.completed.aggregated_per_shard" :=
    respKey_suffix_ne_lit _ _ _ _ _ (by decide)
  have ha3 : joinDot [RESPONSE_PREFIX_VAL, get_entity_name request,
      request.method, toString response.status_code] ++
      ".aggregated_per_cluster" ≠ "response.completed.aggregated_per_shard" :=
    respKey_suffix_ne_lit _ _ _ _ _ (by decide)
  have ha4 : joinDot [RESPONSE_PREFIX_VAL, get_entity_name request,
      request.method, toString response.status_code] ++
      ".aggregated_per_application" ≠ "response.completed.aggregated_per_shard" :=
    respKey_suffix_ne_lit _ _ _ _ _ (by decide)
  have hl1 : (("response.errors.aggregated_per_shard" : String) ==
      "response.completed.aggregated_per_shard") = false := by decide
  have hl2 : (("response.errors.aggregated_per_service" : String) ==
      "response.completed.aggregated_per_shard") = false := by decide
  have hl3 : (("response.errors.aggregated_per_cluster" : String) ==
      "response.completed.aggregated_per_shard") = false := by decide
  have hl4 : (("response.errors.aggregated_per_application" : String) ==
      "response.completed.aggregated_per_shard") = false := by decide
  have hl5 : (("response.completed.aggregated_per_cluster" : String) ==
      "response.completed.aggregated_per_shard") = false := by decide
  have bt : (("response.completed.aggregated_per_shard" : String) ==
      "response.completed.aggregated_per_shard") = true := by decide
  have b1 := beq_eq_false_iff_ne.mpr ha1
  have b2 := beq_eq_false_iff_ne.mpr ha2
  have b3 := beq_eq_false_iff_ne.mpr ha3
  have b4 := beq_eq_false_iff_ne.mpr ha4
  have b5 := hl1
  have b6 := hl2
  have b7 := hl3
  have b8 := hl4
  have b9 := hl5
  have b10 := bt
  simp [countDelta, process_response_events, get_metric_name,
    get_metric_name_without_status, List.countP_append, List.countP_cons,
    isDeltaNamed, enabledMiddleware, pyOr_null_ne,
    apply_ite (List.countP (isDeltaNamed "response.completed.aggregated_per_shard")),
    b1, b2, b3, b4, b5, b6, b7, b8, b9, b10]

theorem countDelta_completed_per_cluster (t : ApplicationTags) (request : Request)
    (response : Response) :
    countDelta (process_response_events (enabledMiddleware t) request response)
      "response.completed.aggregated_per_cluster" =
      if pyTruthy t.cluster then 1 else 0 := by
  have ha1 : joinDot [RESPONSE_PREFIX_VAL, get_entity_name request,
      request.method, toString response.status_code] ++
      ".aggregated_per_shard" ≠ "response.completed.aggregated_per_cluster" :=
    respKey_suffix_ne_lit _ _ _ _ _ (by decide)
  have ha2 : joinDot [RESPONSE_PREFIX_VAL, get_entity_name request,
      request.method, toString response.status_code] ++
      ".aggregated_per_service" ≠ "response.completed.aggregated_per_cluster" :=
    respKey_suffix_ne_lit _ _ _ _ _ (by decide)
  have ha3 : joinDot [RESPONSE_PREFIX_VAL, get_entity_name request,
      request.method, toString response.status_code] ++
      ".aggregated_per_cluster" ≠ "response.completed.aggregated_per_cluster" :=
    respKey_suffix_ne_lit _ _ _ _ _ (by decide)
  have ha4 : joinDot [RESPONSE_PREFIX_VAL, get_entity_name request,
      request.method, toString response.status_code] ++
      ".aggregated_per_application" ≠ "response.completed.aggregated_per_cluster" :=
    respKey_suffix_ne_lit _ _ _ _ _ (by decide)
  have hl1 : (("response.errors.aggregated_per_shard" : String) ==
      "response.completed.aggregated_per_cluster") = false := by decide
  have hl2 : (("response.errors.aggregated_per_service" : String) ==
      "response.completed.aggregated_per_cluster") = false := by decide
  have hl3 : (("response.errors.aggregated_per_cluster" : String) ==
      "response.completed.aggregated_per_cluster") = false := by decide
  have hl4 : (("response.errors.aggregated_per_application" : String) ==
      "response.completed.aggregated_per_cluster") = false := by decide
  have hl5 : (("response.completed.aggregated_per_shard" : String) ==
      "response.completed.aggregated_per_cluster") = false := by decide
  have bt : (("response.completed.aggregated_per_cluster" : String) ==
      "response.completed.aggregated_per_cluster") = true := by decide
  have b1 := beq_eq_false_iff_ne.mpr ha1
  have b2 := beq_eq_false_iff_ne.mpr ha2
  have b3 := beq_eq_false_iff_ne.mpr ha3
  have b4 := beq_eq_false_iff_ne.mpr ha4
  have b5 := hl1
  have b6 := hl2
  have b7 := hl3
  have b8 := hl4
  have b9 := hl5
  have b10 := bt
  simp [countDelta, process_response_events, get_metric_name,
    get_metric_name_without_status, List.countP_append, List.countP_cons,
    isDeltaNamed, enabledMiddleware, pyOr_null_ne,
    apply_ite (List.countP (isDeltaNamed "response.completed.aggregated_per_cluster")),
    b1, b2, b3, b4, b5, b6, b7, b8, b9, b10]

/- ### Gauge accounting -/

theorem readGauge_applyEvent (st : Registry) (e : Event) (k : String × TagMap) :
    readGauge (applyEvent st e) k = readGauge st k + gaugeContrib k e := by
  cases e with
  | gauge name tags val =>
    by_cases h : k = (name, tags)
    · subst h
      simp [applyEvent, update_gauge, readGauge, updateFn, gaugeContrib]
    · simp [applyEvent, update_gauge, readGauge, updateFn, gaugeContrib, h]
  | counter name tags => simp [applyEvent, readGauge, gaugeContrib]
  | delta name tags => simp [applyEvent, readGauge, gaugeContrib]
  | hist name tags => simp [applyEvent, readGauge, gaugeContrib]

theorem readGauge_foldl (evs : List Event) (st : Registry)
    (k : String × TagMap) :
    readGauge (evs.foldl applyEvent st) k = readGauge st k + gaugeSum k evs := by
  induction evs generalizing st with
  | nil => simp [gaugeSum]
  | cons e rest ih =>
    rw [List.foldl_cons, ih, readGauge_applyEvent]
    simp [gaugeSum]
    ring

theorem gaugeSum_append (k : String × TagMap) (l₁ l₂ : List Event) :
    gaugeSum k (l₁ ++ l₂) = gaugeSum k l₁ + gaugeSum k l₂ := by
  simp [gaugeSum]

theorem gaugeSum_ite_nil (k : String × TagMap) (g : Prop) [Decidable g]
    (l : List Event) :
    gaugeSum k (if g then l else []) = if g then gaugeSum k l else 0 := by
  split <;> simp [gaugeSum]

theorem gaugeSum_view_events (m : WavefrontMiddleware) (request : Request)
    (k : String × TagMap) :
    gaugeSum k (process_view_events m request) =
      (if k = entityInflightKey request then 1 else 0) +
      (if k = totalInflightKey m then 1 else 0) := by
  simp [process_view_events, gaugeSum, gaugeContrib, entityInflightKey,
    totalInflightKey]

theorem gaugeSum_response_events (m : WavefrontMiddleware) (request : Request)
    (response : Response) (k : String × TagMap) :
    gaugeSum k (process_response_events m request response) =
      (if k = entityInflightKey request then -1 else 0) +
      (if k = totalInflightKey m then -1 else 0) := by
  simp only [process_response_events, gaugeSum_append, gaugeSum_ite_nil]
  simp [gaugeSum, gaugeContrib, entityInflightKey, totalInflightKey]

theorem readGauge_view_response_net (t : ApplicationTags) (st : Registry)
    (request : Request) (response : Response) (k : String × TagMap) :
    readGauge
      ((process_response (enabledMiddleware t)
        (process_view (enabledMiddleware t) st request).1
        (process_view (enabledMiddleware t) st request).2 response).1) k =
      readGauge st k := by
  have hen : (enabledMiddleware t).MIDDLEWARE_ENABLED = true := rfl
  rw [process_view, process_response]
  simp only [hen]
  rw [if_neg (by simp), if_neg (by simp)]
  simp only [readGauge_foldl, gaugeSum_response_events, gaugeSum_view_events]
  have hkey : entityInflightKey { request with has_wf_start := true } =
      entityInflightKey request := rfl
  rw [hkey]
  split_ifs <;> ring

/- ### Tag-map lookups -/

theorem lookup_append (k : String) (l₁ l₂ : List (String × String)) :
    List.lookup k (l₁ ++ l₂) = (List.lookup k l₁).or (List.lookup k l₂) := by
  induction l₁ with
  | nil => simp [List.lookup]
  | cons p rest ih =>
    cases p with
    | mk a b =>
      rw [List.cons_append, List.lookup, List.lookup]
      cases h : k == a <;> simp [h, ih]

theorem lookup_optTag_none (k key : String) (v : Option String)
    (h : (k == key) = false ∨ pyTruthy v = false) :
    List.lookup k (optTag key v) = none := by
  rcases h with h | h
  · cases hv : pyTruthy v <;> simp [optTag, hv, List.lookup, h]
  · simp [optTag, h]

theorem lookup_tags_map_cluster (c sv sh mn fn so : Option String)
    (h : pyTruthy c = false) :
    List.lookup "cluster" (get_tags_map c sv sh mn fn so) = none := by
  have l1 := lookup_optTag_none "cluster" "cluster" c (Or.inr h)
  have l2 := lookup_optTag_none "cluster" "service" sv (Or.inl (by decide))
  have l3 := lookup_optTag_none "cluster" "shard" sh (Or.inl (by decide))
  have l4 := lookup_optTag_none "cluster" "django.resource.module" mn
    (Or.inl (by decide))
  have l5 := lookup_optTag_none "cluster" "django.resource.func" fn
    (Or.inl (by decide))
  have l6 := lookup_optTag_none "cluster" "source" so (Or.inl (by decide))
  simp [get_tags_map, lookup_append, l1, l2, l3, l4, l5, l6]

theorem lookup_tags_map_shard (c sv sh mn fn so : Option String)
    (h : pyTruthy sh = false) :
    List.lookup "shard" (get_tags_map c sv sh mn fn so) = none := by
  have l1 := lookup_optTag_none "shard" "cluster" c (Or.inl (by decide))
  have l2 := lookup_optTag_none "shard" "service" sv (Or.inl (by decide))
  have l3 := lookup_optTag_none "shard" "shard" sh (Or.inr h)
  have l4 := lookup_optTag_none "shard" "django.resource.module" mn
    (Or.inl (by decide))
  have l5 := lookup_optTag_none "shard" "django.resource.func" fn
    (Or.inl (by decide))
  have l6 := lookup_optTag_none "shard" "source" so (Or.inl (by decide))
  simp [get_tags_map, lookup_append, l1, l2, l3, l4, l5, l6]

theorem mem_ite_nil {α : Type} {g : Prop} [Decidable g] {l : List α} {a : α} :
    a ∈ (if g then l else []) ↔ g ∧ a ∈ l := by
  by_cases h : g <;> simp [h]

/-- Every tag map attached to an event of `process_response_events` is a
`get_tags_map` application whose cluster argument is `some m.CLUSTER` or
`none` and whose shard argument is `some m.SHARD` or `none`. -/
theorem tags_of_response_events (m : WavefrontMiddleware) (request : Request)
    (response : Response) (P : TagMap → Prop)
    (h : ∀ (c sv sh mn fn so : Option String),
      (c = some m.CLUSTER ∨ c = none) → (sh = some m.SHARD ∨ sh = none) →
      P (get_tags_map c sv sh mn fn so)) :
    ∀ e ∈ process_response_events m request response, P (eventTags e) := by
  have hite : ∀ (g : Prop) [Decidable g] (l : List Event),
      (∀ x ∈ l, P (eventTags x)) → ∀ x ∈ (if g then l else []),
      P (eventTags x) := by
    intro g _ l hl x hx
    rw [mem_ite_nil] at hx
    exact hl x hx.2
  simp only [process_response_events]
  repeat'
    first
    | refine List.forall_mem_append.mpr ⟨?_, ?_⟩
    | refine List.forall_mem_cons.mpr ⟨?_, ?_⟩
    | apply hite
    | exact List.forall_mem_nil _
    | exact h _ _ _ _ _ _ (Or.inl rfl) (Or.inl rfl)
    | exact h _ _ _ _ _ _ (Or.inl rfl) (Or.inr rfl)
    | exact h _ _ _ _ _ _ (Or.inr rfl) (Or.inl rfl)
    | exact h _ _ _ _ _ _ (Or.inr rfl) (Or.inr rfl)

/- ### Sanitization: list lemmas -/

theorem dropWhile_idem (p : Char → Bool) (l : List Char) :
    (l.dropWhile p).dropWhile p = l.dropWhile p := by
  induction l with
  | nil => rfl
  | cons a t ih =>
    cases h : p a with
    | true => simp [List.dropWhile, h, ih]
    | false => simp [List.dropWhile, h]

theorem dropWhile_head_false {p : Char → Bool} {l t : List Char} {a : Char}
    (h : l.dropWhile p = a :: t) : p a = false := by
  induction l with
  | nil => simp [List.dropWhile] at h
  | cons b r ih =>
    cases hb : p b with
    | true =>
      rw [List.dropWhile_cons_of_pos hb] at h
      exact ih h
    | false =>
      rw [List.dropWhile_cons_of_neg (by simp [hb])] at h
      cases h
      exact hb

theorem dropWhile_eq_self_of_head {p : Char → Bool} {l : List Char}
    (h : ∀ a t, l = a :: t → p a = false) : l.dropWhile p = l := by
  cases l with
  | nil => rfl
  | cons a t => exact List.dropWhile_cons_of_neg (by simp [h a t rfl])

theorem map_id_of_fixed {l : List Char} {f : Char → Char}
    (h : ∀ c ∈ l, f c = c) : l.map f = l := by
  induction l with
  | nil => rfl
  | cons a t ih =>
    rw [List.map_cons, h a (List.mem_cons_self a t),
      ih (fun c hc => h c (List.mem_cons_of_mem a hc))]

theorem mem_pyReplace {c : Char} {s : String} {a b : Char}
    (hc : c ∈ (pyReplace s a b).data) :
    ∃ d ∈ s.data, c = if d = a then b else d := by
  simp only [pyReplace, List.mem_map] at hc
  obtain ⟨d, hd, rfl⟩ := hc
  exact ⟨d, hd, rfl⟩

theorem mem_replace_route_chars {c : Char} {s : String}
    (hc : c ∈ (replace_route_chars s).data) :
    c ≠ '-' ∧ c ≠ '/' ∧ c ≠ '\x7b' ∧ c ≠ '\x7d' := by
  rw [replace_route_chars] at hc
  obtain ⟨d3, hd3, rfl⟩ := mem_pyReplace hc
  obtain ⟨d2, hd2, rfl⟩ := mem_pyReplace hd3
  obtain ⟨d1, hd1, rfl⟩ := mem_pyReplace hd2
  obtain ⟨d0, -, rfl⟩ := mem_pyReplace hd1
  split_ifs <;> simp_all

theorem pyReplace_id {s : String} {a b : Char}
    (h : ∀ c ∈ s.data, c ≠ a) : pyReplace s a b = s := by
  apply string_eq_of_data
  show s.data.map _ = s.data
  exact map_id_of_fixed (fun c hc => if_neg (h c hc))

theorem replace_route_chars_id {s : String}
    (h : ∀ c ∈ s.data, c ≠ '-' ∧ c ≠ '/' ∧ c ≠ '\x7b' ∧ c ≠ '\x7d') :
    replace_route_chars s = s := by
  rw [replace_route_chars]
  rw [pyReplace_id (fun c hc => (h c hc).1)]
  rw [pyReplace_id (fun c hc => (h c hc).2.1)]
  rw [pyReplace_id (fun c hc => (h c hc).2.2.1)]
  exact pyReplace_id (fun c hc => (h c hc).2.2.2)

theorem mem_pyLstripDot {c : Char} {s : String}
    (hc : c ∈ (pyLstripDot s).data) : c ∈ s.data :=
  (List.dropWhile_sublist _).subset hc

theorem mem_pyRstripDot {c : Char} {s : String}
    (hc : c ∈ (pyRstripDot s).data) : c ∈ s.data := by
  rw [pyRstripDot] at hc
  rw [show ((⟨(s.data.reverse.dropWhile (fun c => c == '.')).reverse⟩ :
    String)).data = (s.data.reverse.dropWhile (fun c => c == '.')).reverse
    from rfl] at hc
  rw [List.mem_reverse] at hc
  have := (List.dropWhile_sublist (l := s.data.reverse)
    (p := (fun c => c == '.'))).subset hc
  rwa [List.mem_reverse] at this

theorem pyLstripDot_pyRstripDot_comm_fixed (s : String) :
    pyLstripDot (pyRstripDot (pyLstripDot s)) = pyRstripDot (pyLstripDot s) := by
  apply string_eq_of_data
  show ((((s.data.dropWhile (fun c => c == '.')).reverse.dropWhile
    (fun c => c == '.')).reverse).dropWhile (fun c => c == '.')) = _
  apply dropWhile_eq_self_of_head
  intro a t h
  -- a is the head of a prefix of `dropWhile (· == '.') s.data`, whose head
  -- already fails the predicate
  have hpre : ((s.data.dropWhile (fun c => c == '.')).reverse.dropWhile
      (fun c => c == '.')).reverse <+: s.data.dropWhile (fun c => c == '.') := by
    have h0 : (s.data.dropWhile (fun c => c == '.')).reverse.dropWhile
        (fun c => c == '.') <:+ (s.data.dropWhile (fun c => c == '.')).reverse :=
      List.dropWhile_suffix _
    have h1 := (List.reverse_prefix).mpr h0
    rwa [List.reverse_reverse] at h1
  obtain ⟨r, hr⟩ := hpre
  rw [h] at hr
  have hf := dropWhile_head_false hr.symm
  exact hf

theorem pyRstripDot_idem_on_stripped (s : String) :
    pyRstripDot (pyRstripDot (pyLstripDot s)) = pyRstripDot (pyLstripDot s) := by
  apply string_eq_of_data
  show (((((s.data.dropWhile (fun c => c == '.')).reverse.dropWhile
    (fun c => c == '.')).reverse).reverse).dropWhile (fun c => c == '.')).reverse
    = ((s.data.dropWhile (fun c => c == '.')).reverse.dropWhile
      (fun c => c == '.')).reverse
  rw [List.reverse_reverse, dropWhile_idem]

theorem sanitize_entity_name_idem (s : String) :
    sanitize_entity_name (sanitize_entity_name s) = sanitize_entity_name s := by
  have h1 : replace_route_chars (sanitize_entity_name s) =
      sanitize_entity_name s := by
    apply replace_route_chars_id
    intro c hc
    rw [sanitize_entity_name] at hc
    exact mem_replace_route_chars (mem_pyLstripDot (mem_pyRstripDot hc))
  rw [show sanitize_entity_name (sanitize_entity_name s) =
    pyRstripDot (pyLstripDot (replace_route_chars (sanitize_entity_name s)))
    from rfl, h1, sanitize_entity_name,
    pyLstripDot_pyRstripDot_comm_fixed, pyRstripDot_idem_on_stripped]

theorem countCounter_respKey_cumulative (t : ApplicationTags)
    (request : Request) (response : Response) :
    countCounter (process_response_events (enabledMiddleware t) request response)
      (get_metric_name (get_entity_name request) request (some response) ++
        ".cumulative") = 1 := by
  have h1 : joinDot [REQUEST_PREFIX_VAL, get_entity_name request,
      request.method] ≠
      joinDot [RESPONSE_PREFIX_VAL, get_entity_name request, request.method,
      toString response.status_code] ++ ".cumulative" :=
    reqKey_ne_respKey_suffix _ _ _ _ _ _
  have hl1 : joinDot [RESPONSE_PREFIX_VAL, get_entity_name request,
      request.method, toString response.status_code] ++ ".cumulative" ≠
      "response.errors" :=
    respKey_suffix_ne_lit _ _ _ _ _ (by decide)
  have hl2 : joinDot [RESPONSE_PREFIX_VAL, get_entity_name request,
      request.method, toString response.status_code] ++ ".cumulative" ≠
      "response.errors.aggregated_per_source" :=
    respKey_suffix_ne_lit _ _ _ _ _ (by decide)
  have hl3 : joinDot [RESPONSE_PREFIX_VAL, get_entity_name request,
      request.method, toString response.status_code] ++ ".cumulative" ≠
      "response.completed.aggregated_per_source" :=
    respKey_suffix_ne_lit _ _ _ _ _ (by decide)
  have hl4 : joinDot [RESPONSE_PREFIX_VAL, get_entity_name request,
      request.method, toString response.status_code] ++ ".cumulative" ≠
      "response.completed.aggregated_per_service" :=
    respKey_suffix_ne_lit _ _ _ _ _ (by decide)
  have hl5 : joinDot [RESPONSE_PREFIX_VAL, get_entity_name request,
      request.method, toString response.status_code] ++ ".cumulative" ≠
      "response.completed.aggregated_per_application" :=
    respKey_suffix_ne_lit _ _ _ _ _ (by decide)
  have b1 := beq_eq_false_iff_ne.mpr h1
  have b2 := beq_eq_false_iff_ne.mpr hl1.symm
  have b3 := beq_eq_false_iff_ne.mpr hl2.symm
  have b4 := beq_eq_false_iff_ne.mpr hl3.symm
  have b5 := beq_eq_false_iff_ne.mpr hl4.symm
  have b6 := beq_eq_false_iff_ne.mpr hl5.symm
  simp [countCounter, process_response_events, get_metric_name,
    get_metric_name_without_status, List.countP_append, List.countP_cons,
    isCounterNamed,
    apply_ite (List.countP (isCounterNamed
      (joinDot [RESPONSE_PREFIX_VAL, get_entity_name request, request.method,
        toString response.status_code] ++ ".cumulative"))),
    b1, b2, b3, b4, b5, b6]

theorem countCounter_without_status (t : ApplicationTags) (request : Request)
    (response : Response) :
    countCounter (process_response_events (enabledMiddleware t) request response)
      (get_metric_name_without_status (get_entity_name request) request) =
      if is_error_status_code response then 1 else 0 := by
  have h1 : joinDot [RESPONSE_PREFIX_VAL, get_entity_name request,
      request.method, toString response.status_code] ++ ".cumulative" ≠
      joinDot [REQUEST_PREFIX_VAL, get_entity_name request, request.method] :=
    (reqKey_ne_respKey_suffix _ _ _ _ _ _).symm
  have hl1 : ("response.errors" : String) ≠
      joinDot [REQUEST_PREFIX_VAL, get_entity_name request, request.method] :=
    (reqKey_ne_resp_lit _ _ _ "onse.errors" (by decide)).symm
  have hl2 : ("response.errors.aggregated_per_source" : String) ≠
      joinDot [REQUEST_PREFIX_VAL, get_entity_name request, request.method] :=
    (reqKey_ne_resp_lit _ _ _ "onse.errors.aggregated_per_source"
      (by decide)).symm
  have hl3 : ("response.completed.aggregated_per_source" : String) ≠
      joinDot [REQUEST_PREFIX_VAL, get_entity_name request, request.method] :=
    (reqKey_ne_resp_lit _ _ _ "onse.completed.aggregated_per_source"
      (by decide)).symm
  have hl4 : ("response.completed.aggregated_per_service" : String) ≠
      joinDot [REQUEST_PREFIX_VAL, get_entity_name request, request.method] :=
    (reqKey_ne_resp_lit _ _ _ "onse.completed.aggregated_per_service"
      (by decide)).symm
  have hl5 : ("response.completed.aggregated_per_application" : String) ≠
      joinDot [REQUEST_PREFIX_VAL, get_entity_name request, request.method] :=
    (reqKey_ne_resp_lit _ _ _ "onse.completed.aggregated_per_application"
      (by decide)).symm
  have b1 := beq_eq_false_iff_ne.mpr h1
  have b2 := beq_eq_false_iff_ne.mpr hl1
  have b3 := beq_eq_false_iff_ne.mpr hl2
  have b4 := beq_eq_false_iff_ne.mpr hl3
  have b5 := beq_eq_false_iff_ne.mpr hl4
  have b6 := beq_eq_false_iff_ne.mpr hl5
  simp [countCounter, process_response_events, get_metric_name,
    get_metric_name_without_status, List.countP_append, List.countP_cons,
    isCounterNamed,
    apply_ite (List.countP (isCounterNamed
      (joinDot [REQUEST_PREFIX_VAL, get_entity_name request,
        request.method]))),
    b1, b2, b3, b4, b5, b6]

theorem countDelta_respKey_per_service (t : ApplicationTags) (request : Request)
    (response : Response) :
    countDelta (process_response_events (enabledMiddleware t) request response)
      (get_metric_name (get_entity_name request) request (some response) ++
        ".aggregated_per_service") =
      1 := by
  have ha1 : joinDot [RESPONSE_PREFIX_VAL, get_entity_name request,
      request.method, toString response.status_code] ++
      ".aggregated_per_shard" ≠
      joinDot [RESPONSE_PREFIX_VAL, get_entity_name request,
      request.method, toString response.status_code] ++ ".aggregated_per_service" :=
    string_append_ne_right _ (by decide)
  have ha2 : joinDot [RESPONSE_PREFIX_VAL, get_entity_name request,
      request.method, toString response.status_code] ++
      ".aggregated_per_cluster" ≠
      joinDot [RESPONSE_PREFIX_VAL, get_entity_name request,
      request.method, toString response.status_code] ++ ".aggregated_per_service" :=
    string_append_ne_right _ (by decide)
  have ha3 : joinDot [RESPONSE_PREFIX_VAL, get_entity_name request,
      request.method, toString response.status_code] ++
      ".aggregated_per_application" ≠
      joinDot [RESPONSE_PREFIX_VAL, get_entity_name request,
      request.method, toString response.status_code] ++ ".aggregated_per_service" :=
    string_append_ne_right _ (by decide)
  have hl1 : joinDot [RESPONSE_PREFIX_VAL, get_entity_name request,
      request.method, toString response.status_code] ++
      ".aggregated_per_service" ≠ "response.errors.aggregated_per_shard" :=
    respKey_suffix_ne_lit _ _ _ _ _ (by decide)
  have hl2 : joinDot [RESPONSE_PREFIX_VAL, get_entity_name request,
      request.method, toString response.status_code] ++
      ".aggregated_per_service" ≠ "response.errors.aggregated_per_service" :=
    respKey_suffix_ne_lit _ _ _ _ _ (by decide)
  have hl3 : joinDot [RESPONSE_PREFIX_VAL, get_entity_name request,
      request.method, toString response.status_code] ++
      ".aggregated_per_service" ≠ "response.errors.aggregated_per_cluster" :=
    respKey_suffix_ne_lit _ _ _ _ _ (by decide)
  have hl4 : joinDot [RESPONSE_PREFIX_VAL, get_entity_name request,
      request.method, toString response.status_code] ++
      ".aggregated_per_service" ≠ "response.errors.aggregated_per_application" :=
    respKey_suffix_ne_lit _ _ _ _ _ (by decide)
  have hl5 : joinDot [RESPONSE_PREFIX_VAL, get_entity_name request,
      request.method, toString response.status_code] ++
      ".aggregated_per_service" ≠ "response.completed.aggregated_per_shard" :=
    respKey_suffix_ne_lit _ _ _ _ _ (by decide)
  have hl6 : joinDot [RESPONSE_PREFIX_VAL, get_entity_name request,
      request.method, toString response.status_code] ++
      ".aggregated_per_service" ≠ "response.completed.aggregated_per_cluster" :=
    respKey_suffix_ne_lit _ _ _ _ _ (by decide)
  have b1 := beq_eq_false_iff_ne.mpr ha1
  have b2 := beq_eq_false_iff_ne.mpr ha2
  have b3 := beq_eq_false_iff_ne.mpr ha3
  have b4 := beq_eq_false_iff_ne.mpr hl1.symm
  have b5 := beq_eq_false_iff_ne.mpr hl2.symm
  have b6 := beq_eq_false_iff_ne.mpr hl3.symm
  have b7 := beq_eq_false_iff_ne.mpr hl4.symm
  have b8 := beq_eq_false_iff_ne.mpr hl5.symm
  have b9 := beq_eq_false_iff_ne.mpr hl6.symm
  simp [countDelta, process_response_events, get_metric_name,
    get_metric_name_without_status, List.countP_append, List.countP_cons,
    isDeltaNamed, enabledMiddleware, pyOr_null_ne,
    apply_ite (List.countP (isDeltaNamed
      (joinDot [RESPONSE_PREFIX_VAL, get_entity_name request,
      request.method, toString response.status_code] ++ ".aggregated_per_service"))),
    b1, b2, b3, b4, b5, b6, b7, b8, b9]

theorem countDelta_respKey_per_application (t : ApplicationTags) (request : Request)
    (response : Response) :
    countDelta (process_response_events (enabledMiddleware t) request response)
      (get_metric_name (get_entity_name request) request (some response) ++
        ".aggregated_per_application") =
      1 := by
  have ha1 : joinDot [RESPONSE_PREFIX_VAL, get_entity_name request,
      request.method, toString response.status_code] ++
      ".aggregated_per_shard" ≠
      joinDot [RESPONSE_PREFIX_VAL, get_entity_name request,
      request.method, toString response.status_code] ++ ".aggregated_per_application" :=
    string_append_ne_right _ (by decide)
  have ha2 : joinDot [RESPONSE_PREFIX_VAL, get_entity_name request,
      request.method, toString response.status_code] ++
      ".aggregated_per_service" ≠
      joinDot [RESPONSE_PREFIX_VAL, get_entity_name request,
      request.method, toString response.status_code] ++ ".aggregated_per_application" :=
    string_append_ne_right _ (by decide)
  have ha3 : joinDot [RESPONSE_PREFIX_VAL, get_entity_name request,
      request.method, toString response.status_code] ++
      ".aggregated_per_cluster" ≠
      joinDot [RESPONSE_PREFIX_VAL, get_entity_name request,
      request.method, toString response.status_code] ++ ".aggregated_per_application" :=
    string_append_ne_right _ (by decide)
  have hl1 : joinDot [RESPONSE_PREFIX_VAL, get_entity_name request,
      request.method, toString response.status_code] ++
      ".aggregated_per_application" ≠ "response.errors.aggregated_per_shard" :=
    respKey_suffix_ne_lit _ _ _ _ _ (by decide)
  have hl2 : joinDot [RESPONSE_PREFIX_VAL, get_entity_name request,
      request.method, toString response.status_code] ++
      ".aggregated_per_application" ≠ "response.errors.aggregated_per_service" :=
    respKey_suffix_ne_lit _ _ _ _ _ (by decide)
  have hl3 : joinDot [RESPONSE_PREFIX_VAL, get_entity_name request,
      request.method, toString response.status_code] ++
      ".aggregated_per_application" ≠ "response.errors.aggregated_per_cluster" :=
    respKey_suffix_ne_lit _ _ _ _ _ (by decide)
  have hl4 : joinDot [RESPONSE_PREFIX_VAL, get_entity_name request,
      request.method, toString response.status_code] ++
      ".aggregated_per_application" ≠ "response.errors.aggregated_per_application" :=
    respKey_suffix_ne_lit _ _ _ _ _ (by decide)
  have hl5 : joinDot [RESPONSE_PREFIX_VAL, get_entity_name request,
      request.method, toString response.status_code] ++
      ".aggregated_per_application" ≠ "response.completed.aggregated_per_shard" :=
    respKey_suffix_ne_lit _ _ _ _ _ (by decide)
  have hl6 : joinDot [RESPONSE_PREFIX_VAL, get_entity_name request,
      request.method, toString response.status_code] ++
      ".aggregated_per_application" ≠ "response.completed.aggregated_per_cluster" :=
    respKey_suffix_ne_lit _ _ _ _ _ (by decide)
  have b1 := beq_eq_false_iff_ne.mpr ha1
  have b2 := beq_eq_false_iff_ne.mpr ha2
  have b3 := beq_eq_false_iff_ne.mpr ha3
  have b4 := beq_eq_false_iff_ne.mpr hl1.symm
  have b5 := beq_eq_false_iff_ne.mpr hl2.symm
  have b6 := beq_eq_false_iff_ne.mpr hl3.symm
  have b7 := beq_eq_false_iff_ne.mpr hl4.symm
  have b8 := beq_eq_false_iff_ne.mpr hl5.symm
  have b9 := beq_eq_false_iff_ne.mpr hl6.symm
  simp [countDelta, process_response_events, get_metric_name,
    get_metric_name_without_status, List.countP_append, List.countP_cons,
    isDeltaNamed, enabledMiddleware, pyOr_null_ne,
    apply_ite (List.countP (isDeltaNamed
      (joinDot [RESPONSE_PREFIX_VAL, get_entity_name request,
      request.method, toString response.status_code] ++ ".aggregated_per_application"))),
    b1, b2, b3, b4, b5, b6, b7, b8, b9]

theorem countDelta_errors_per_service (t : ApplicationTags) (request : Request)
    (response : Response) :
    countDelta (process_response_events (enabledMiddleware t) request response)
      "response.errors.aggregated_per_service" =
      if is_error_status_code response then 1 else 0 := by
  have ha1 : joinDot [RESPONSE_PREFIX_VAL, get_entity_name request,
      request.method, toString response.status_code] ++
      ".aggregated_per_shard" ≠ "response.errors.aggregated_per_service" :=
    respKey_suffix_ne_lit _ _ _ _ _ (by decide)
  have ha2 : joinDot [RESPONSE_PREFIX_VAL, get_entity_name request,
      request.method, toString response.status_code] ++
      ".aggregated_per_service" ≠ "response.errors.aggregated_per_service" :=
    respKey_suffix_ne_lit _ _ _ _ _ (by decide)
  have ha3 : joinDot [RESPONSE_PREFIX_VAL, get_entity_name request,
      request.method, toString response.status_code] ++
      ".aggregated_per_cluster" ≠ "response.errors.aggregated_per_service" :=
    respKey_suffix_ne_lit _ _ _ _ _ (by decide)
  have ha4 : joinDot [RESPONSE_PREFIX_VAL, get_entity_name request,
      request.method, toString response.status_code] ++
      ".aggregated_per_application" ≠ "response.errors.aggregated_per_service" :=
    respKey_suffix_ne_lit _ _ _ _ _ (by decide)
  have hl1 : (("response.errors.aggregated_per_shard" : String) ==
      "response.errors.aggregated_per_service") = false := by decide
  have hl2 : (("response.errors.aggregated_per_cluster" : String) ==
      "response.errors.aggregated_per_service") = false := by decide
  have hl3 : (("response.errors.aggregated_per_application" : String) ==
      "response.errors.aggregated_per_service") = false := by decide
  have hl4 : (("response.completed.aggregated_per_shard" : String) ==
      "response.errors.aggregated_per_service") = false := by decide
  have hl5 : (("response.completed.aggregated_per_cluster" : String) ==
      "response.errors.aggregated_per_service") = false := by decide
  have bt : (("response.errors.aggregated_per_service" : String) ==
      "response.errors.aggregated_per_service") = true := by decide
  have b1 := beq_eq_false_iff_ne.mpr ha1
  have b2 := beq_eq_false_iff_ne.mpr ha2
  have b3 := beq_eq_false_iff_ne.mpr ha3
  have b4 := beq_eq_false_iff_ne.mpr ha4
  have b5 := hl1
  have b6 := hl2
  have b7 := hl3
  have b8 := hl4
  have b9 := hl5
  have b10 := bt
  simp [countDelta, process_response_events, get_metric_name,
    get_metric_name_without_status, List.countP_append, List.countP_cons,
    isDeltaNamed, enabledMiddleware, pyOr_null_ne,
    apply_ite (List.countP (isDeltaNamed "response.errors.aggregated_per_service")),
    b1, b2, b3, b4, b5, b6, b7, b8, b9, b10]

theorem countDelta_errors_per_application (t : ApplicationTags) (request : Request)
    (response : Response) :
    countDelta (process_response_events (enabledMiddleware t) request response)
      "response.errors.aggregated_per_application" =
      if is_error_status_code response then 1 else 0 := by
  have ha1 : joinDot [RESPONSE_PREFIX_VAL, get_entity_name request,
      request.method, toString response.status_code] ++
      ".aggregated_per_shard" ≠ "response.errors.aggregated_per_application" :=
    respKey_suffix_ne_lit _ _ _ _ _ (by decide)
  have ha2 : joinDot [RESPONSE_PREFIX_VAL, get_entity_name request,
      request.method, toString response.status_code] ++
      ".aggregated_per_service" ≠ "response.errors.aggregated_per_application" :=
    respKey_suffix_ne_lit _ _ _ _ _ (by decide)
  have ha3 : joinDot [RESPONSE_PREFIX_VAL, get_entity_name request,
      request.method, toString response.status_code] ++
      ".aggregated_per_cluster" ≠ "response.errors.aggregated_per_application" :=
    respKey_suffix_ne_lit _ _ _ _ _ (by decide)
  have ha4 : joinDot [RESPONSE_PREFIX_VAL, get_entity_name request,
      request.method, toString response.status_code] ++
      ".aggregated_per_application" ≠ "response.errors.aggregated_per_application" :=
    respKey_suffix_ne_lit _ _ _ _ _ (by decide)
  have hl1 : (("response.errors.aggregated_per_shard" : String) ==
      "response.errors.aggregated_per_application") = false := by decide
  have hl2 : (("response.errors.aggregated_per_service" : String) ==
      "response.errors.aggregated_per_application") = false := by decide
  have hl3 : (("response.errors.aggregated_per_cluster" : String) ==
      "response.errors.aggregated_per_application") = false := by decide
  have hl4 : (("response.completed.aggregated_per_shard" : String) ==
      "response.errors.aggregated_per_application") = false := by decide
  have hl5 : (("response.completed.aggregated_per_cluster" : String) ==
      "response.errors.aggregated_per_application") = false := by decide
  have bt : (("response.errors.aggregated_per_application" : String) ==
      "response.errors.aggregated_per_application") = true := by decide
  have b1 := beq_eq_false_iff_ne.mpr ha1
  have b2 := beq_eq_false_iff_ne.mpr ha2
  have b3 := beq_eq_false_iff_ne.mpr ha3
  have b4 := beq_eq_false_iff_ne.mpr ha4
  have b5 := hl1
  have b6 := hl2
  have b7 := hl3
  have b8 := hl4
  have b9 := hl5
  have b10 := bt
  simp [countDelta, process_response_events, get_metric_name,
    get_metric_name_without_status, List.countP_append, List.countP_cons,
    isDeltaNamed, enabledMiddleware, pyOr_null_ne,
    apply_ite (List.countP (isDeltaNamed "response.errors.aggregated_per_application")),
    b1, b2, b3, b4, b5, b6, b7, b8, b9, b10]

/- ### Claim theorems -/

/-- C2 (amended): in each of the three rollup families emitted by
`process_response` (per-status, `response.errors.*`, `response.completed.*`)
the `aggregated_per_shard` delta counter is incremented exactly once iff the
configured shard is truthy (non-null and non-empty) — within the error family
additionally only for error statuses — and is omitted otherwise; likewise for
`aggregated_per_cluster` and the configured cluster. -/
theorem C2_amended_shard_cluster_gates (t : ApplicationTags)
    (request : Request) (response : Response) :
    (countDelta (process_response_events (enabledMiddleware t) request response)
       (get_metric_name (get_entity_name request) request (some response) ++
         ".aggregated_per_shard") = if pyTruthy t.shard then 1 else 0) ∧
    (countDelta (process_response_events (enabledMiddleware t) request response)
       "response.errors.aggregated_per_shard" =
       if is_error_status_code response then
         (if pyTruthy t.shard then 1 else 0) else 0) ∧
    (countDelta (process_response_events (enabledMiddleware t) request response)
       "response.completed.aggregated_per_shard" =
       if pyTruthy t.shard then 1 else 0) ∧
    (countDelta (process_response_events (enabledMiddleware t) request response)
       (get_metric_name (get_entity_name request) request (some response) ++
         ".aggregated_per_cluster") = if pyTruthy t.cluster then 1 else 0) ∧
    (countDelta (process_response_events (enabledMiddleware t) request response)
       "response.errors.aggregated_per_cluster" =
       if is_error_status_code response then
         (if pyTruthy t.cluster then 1 else 0) else 0) ∧
    (countDelta (process_response_events (enabledMiddleware t) request response)
       "response.completed.aggregated_per_cluster" =
       if pyTruthy t.cluster then 1 else 0) :=
  ⟨countDelta_respKey_per_shard t request response,
   countDelta_errors_per_shard t request response,
   countDelta_completed_per_shard t request response,
   countDelta_respKey_per_cluster t request response,
   countDelta_errors_per_cluster t request response,
   countDelta_completed_per_cluster t request response⟩

/-- C2 counterexample: with a shard configured to the non-null (but empty)
string `""` — and an error status so that all three rollup families run —
no `aggregated_per_shard` delta counter is incremented in any family, so
"incremented iff the configured shard is non-null" fails as stated. -/
theorem C2_counterexample_empty_shard :
    ({ application := "beachshirts", service := "styling",
       cluster := some "us-west", shard := some "",
       custom_tags := none } : ApplicationTags).shard ≠ none ∧
    countDelta (process_response_events (enabledMiddleware
      { application := "beachshirts", service := "styling",
        cluster := some "us-west", shard := some "", custom_tags := none })
      { resolver_match :=
          some { url_name := some "make", view_name := "shirts.views.make" },
        method := "GET", func_name := "make", module_name := "shirts.views",
        has_wf_start := true }
      { status_code := 503 })
      "response.make.GET.503.aggregated_per_shard" = 0 ∧
    countDelta (process_response_events (enabledMiddleware
      { application := "beachshirts", service := "styling",
        cluster := some "us-west", shard := some "", custom_tags := none })
      { resolver_match :=
          some { url_name := some "make", view_name := "shirts.views.make" },
        method := "GET", func_name := "make", module_name := "shirts.views",
        has_wf_start := true }
      { status_code := 503 })
      "response.errors.aggregated_per_shard" = 0 ∧
    countDelta (process_response_events (enabledMiddleware
      { application := "beachshirts", service := "styling",
        cluster := some "us-west", shard := some "", custom_tags := none })
      { resolver_match :=
          some { url_name := some "make", view_name := "shirts.views.make" },
        method := "GET", func_name := "make", module_name := "shirts.views",
        has_wf_start := true }
      { status_code := 503 })
      "response.completed.aggregated_per_shard" = 0 := by
  decide

/-- C3: within the completion-counter block of `process_response`,
`response.completed.aggregated_per_source` is incremented unconditionally for
every completed request; the `response.completed.aggregated_per_shard` delta
counter and `response.completed.aggregated_per_service` counter are
incremented together iff a (truthy) shard is configured; the
`response.completed.aggregated_per_cluster` delta counter and
`response.completed.aggregated_per_application` counter are incremented
together iff a (truthy) cluster is configured. -/
theorem C3_completed_block_gating (t : ApplicationTags) (request : Request)
    (response : Response) :
    countCounter (process_response_events (enabledMiddleware t) request response)
      "response.completed.aggregated_per_source" = 1 ∧
    countDelta (process_response_events (enabledMiddleware t) request response)
      "response.completed.aggregated_per_shard" =
      (if pyTruthy t.shard then 1 else 0) ∧
    countCounter (process_response_events (enabledMiddleware t) request response)
      "response.completed.aggregated_per_service" =
      (if pyTruthy t.shard then 1 else 0) ∧
    countDelta (process_response_events (enabledMiddleware t) request response)
      "response.completed.aggregated_per_cluster" =
      (if pyTruthy t.cluster then 1 else 0) ∧
    countCounter (process_response_events (enabledMiddleware t) request response)
      "response.completed.aggregated_per_application" =
      (if pyTruthy t.cluster then 1 else 0) :=
  ⟨countCounter_completed_per_source t request response,
   countDelta_completed_per_shard t request response,
   countCounter_completed_per_service t request response,
   countDelta_completed_per_cluster t request response,
   countCounter_completed_per_application t request response⟩

/-- C4: `process_response` runs the error-path counter increments exactly for
`400 <= status_code <= 599` inclusive: each of the seven error-block counters
(the bare `request.<entity>.<method>` cumulative counter, `response.errors`,
`response.errors.aggregated_per_source`, and the four
`response.errors.aggregated_per_*` delta counters, the shard/cluster variants
under their configuration gates) is incremented iff the status is in the
range and is silent outside it; and every completion-path counter — the
per-status rollup block and the `response.completed.*` block — has a count
independent of the status code, so inside the range the error counters fire
in addition to (not instead of) the completion counters, and outside it only
the completion-path counters are incremented. -/
theorem C4_error_classification (t : ApplicationTags) (request : Request)
    (response : Response) :
    (countCounter (process_response_events (enabledMiddleware t) request response)
       (get_metric_name_without_status (get_entity_name request) request) =
       if 400 ≤ response.status_code ∧ response.status_code ≤ 599 then 1
       else 0) ∧
    (countCounter (process_response_events (enabledMiddleware t) request response)
       "response.errors" =
       if 400 ≤ response.status_code ∧ response.status_code ≤ 599 then 1
       else 0) ∧
    (countCounter (process_response_events (enabledMiddleware t) request response)
       "response.errors.aggregated_per_source" =
       if 400 ≤ response.status_code ∧ response.status_code ≤ 599 then 1
       else 0) ∧
    (countDelta (process_response_events (enabledMiddleware t) request response)
       "response.errors.aggregated_per_shard" =
       if 400 ≤ response.status_code ∧ response.status_code ≤ 599 then
         (if pyTruthy t.shard then 1 else 0) else 0) ∧
    (countDelta (process_response_events (enabledMiddleware t) request response)
       "response.errors.aggregated_per_service" =
       if 400 ≤ response.status_code ∧ response.status_code ≤ 599 then 1
       else 0) ∧
    (countDelta (process_response_events (enabledMiddleware t) request response)
       "response.errors.aggregated_per_cluster" =
       if 400 ≤ response.status_code ∧ response.status_code ≤ 599 then
         (if pyTruthy t.cluster then 1 else 0) else 0) ∧
    (countDelta (process_response_events (enabledMiddleware t) request response)
       "response.errors.aggregated_per_application" =
       if 400 ≤ response.status_code ∧ response.status_code ≤ 599 then 1
       else 0) ∧
    (countCounter (process_response_events (enabledMiddleware t) request response)
       (get_metric_name (get_entity_name request) request (some response) ++
         ".cumulative") = 1) ∧
    (countDelta (process_response_events (enabledMiddleware t) request response)
       (get_metric_name (get_entity_name request) request (some response) ++
         ".aggregated_per_shard") = if pyTruthy t.shard then 1 else 0) ∧
    (countDelta (process_response_events (enabledMiddleware t) request response)
       (get_metric_name (get_entity_name request) request (some response) ++
         ".aggregated_per_service") = 1) ∧
    (countDelta (process_response_events (enabledMiddleware t) request response)
       (get_metric_name (get_entity_name request) request (some response) ++
         ".aggregated_per_cluster") = if pyTruthy t.cluster then 1 else 0) ∧
    (countDelta (process_response_events (enabledMiddleware t) request response)
       (get_metric_name (get_entity_name request) request (some response) ++
         ".aggregated_per_application") = 1) ∧
    (countCounter (process_response_events (enabledMiddleware t) request response)
       "response.completed.aggregated_per_source" = 1) ∧
    (countDelta (process_response_events (enabledMiddleware t) request response)
       "response.completed.aggregated_per_shard" =
       if pyTruthy t.shard then 1 else 0) ∧
    (countCounter (process_response_events (enabledMiddleware t) request response)
       "response.completed.aggregated_per_service" =
       if pyTruthy t.shard then 1 else 0) ∧
    (countDelta (process_response_events (enabledMiddleware t) request response)
       "response.completed.aggregated_per_cluster" =
       if pyTruthy t.cluster then 1 else 0) ∧
    (countCounter (process_response_events (enabledMiddleware t) request response)
       "response.completed.aggregated_per_application" =
       if pyTruthy t.cluster then 1 else 0) := by
  refine ⟨?_, ?_, ?_, ?_, ?_, ?_, ?_,
    countCounter_respKey_cumulative t request response,
    countDelta_respKey_per_shard t request response,
    countDelta_respKey_per_service t request response,
    countDelta_respKey_per_cluster t request response,
    countDelta_respKey_per_application t request response,
    countCounter_completed_per_source t request response,
    countDelta_completed_per_shard t request response,
    countCounter_completed_per_service t request response,
    countDelta_completed_per_cluster t request response,
    countCounter_completed_per_application t request response⟩
  · rw [countCounter_without_status]
    simp [is_error_status_code]
  · rw [countCounter_response_errors]
    simp [is_error_status_code]
  · rw [countCounter_errors_per_source]
    simp [is_error_status_code]
  · rw [countDelta_errors_per_shard]
    simp [is_error_status_code]
  · rw [countDelta_errors_per_service]
    simp [is_error_status_code]
  · rw [countDelta_errors_per_cluster]
    simp [is_error_status_code]
  · rw [countDelta_errors_per_application]
    simp [is_error_status_code]

/-- C5: for a request whose `process_view` and `process_response` both run on
the enabled middleware with the same route resolution, the net change to each
of the two inflight gauges — the per-entity `<request-prefix>.<entity>.
<method>.inflight` gauge and the `total_requests.inflight` gauge — is exactly
zero: `+1` on start and `-1` on completion under the same key and tag set. -/
theorem C5_inflight_net_zero (t : ApplicationTags) (st : Registry)
    (request : Request) (response : Response) :
    readGauge ((process_response (enabledMiddleware t)
      (process_view (enabledMiddleware t) st request).1
      (process_view (enabledMiddleware t) st request).2 response).1)
      (entityInflightKey request) = readGauge st (entityInflightKey request) ∧
    readGauge ((process_response (enabledMiddleware t)
      (process_view (enabledMiddleware t) st request).1
      (process_view (enabledMiddleware t) st request).2 response).1)
      (totalInflightKey (enabledMiddleware t)) =
      readGauge st (totalInflightKey (enabledMiddleware t)) :=
  ⟨readGauge_view_response_net t st request response _,
   readGauge_view_response_net t st request response _⟩

/-- C7: the entity-name sanitization of `get_entity_name` maps `-` to `_`,
`/` to `.`, and both brace characters to `_` (character-wise), then strips
leading and trailing dots; applied to a route name it equals
`sanitize_entity_name`, and the sanitization is idempotent. -/
theorem C7_sanitization_idempotent (s : String) :
    ((replace_route_chars s).data = s.data.map (fun c =>
      if c = '-' then '_' else if c = '/' then '.' else
      if c = '\x7b' then '_' else if c = '\x7d' then '_' else c)) ∧
    (∀ (rm : ResolverMatch) (meth fn mn : String) (ws : Bool),
      get_entity_name
        { resolver_match := some rm, method := meth, func_name := fn,
          module_name := mn, has_wf_start := ws } =
      sanitize_entity_name
        (if pyTruthy rm.url_name then rm.url_name.getD "" else rm.view_name)) ∧
    sanitize_entity_name (sanitize_entity_name s) = sanitize_entity_name s := by
  refine ⟨?_, fun rm meth fn mn ws => rfl, sanitize_entity_name_idem s⟩
  show ((((s.data.map _).map _).map _).map _) = _
  rw [List.map_map, List.map_map, List.map_map]
  apply List.map_congr_left
  intro c _
  by_cases h1 : c = '-'
  · subst h1; decide
  · by_cases h2 : c = '/'
    · subst h2; decide
    · by_cases h3 : c = '\x7b'
      · subst h3; decide
      · by_cases h4 : c = '\x7d'
        · subst h4; decide
        · simp [Function.comp, h1, h2, h3, h4]

/-- C1 (code evidence): for the canonical error request (url_name `make`,
method GET, status 503, no cluster/shard) the error block increments the
cumulative counter named `request.make.GET` — `get_metric_name_without_status`
with no `.errors` suffix appended — together with `response.errors`, and no
event named `request.make.GET.errors` of any kind is emitted; the
`.errors`-suffixed per-entity counter described by the spec (and by the
source's own comment block) is never produced. -/
theorem C1_error_counter_name_missing_suffix :
    is_error_status_code { status_code := 503 } = true ∧
    countCounter (process_response_events (enabledMiddleware
      { application := "beachshirts", service := "styling", cluster := none,
        shard := none, custom_tags := none })
      { resolver_match :=
          some { url_name := some "make", view_name := "shirts.views.make" },
        method := "GET", func_name := "make", module_name := "shirts.views",
        has_wf_start := true }
      { status_code := 503 }) "request.make.GET" = 1 ∧
    countCounter (process_response_events (enabledMiddleware
      { application := "beachshirts", service := "styling", cluster := none,
        shard := none, custom_tags := none })
      { resolver_match :=
          some { url_name := some "make", view_name := "shirts.views.make" },
        method := "GET", func_name := "make", module_name := "shirts.views",
        has_wf_start := true }
      { status_code := 503 }) "response.errors" = 1 ∧
    (process_response_events (enabledMiddleware
      { application := "beachshirts", service := "styling", cluster := none,
        shard := none, custom_tags := none })
      { resolver_match :=
          some { url_name := some "make", view_name := "shirts.views.make" },
        method := "GET", func_name := "make", module_name := "shirts.views",
        has_wf_start := true }
      { status_code := 503 }).all
      (fun e => !(eventName e == "request.make.GET.errors")) = true := by
  decide

/-- C6: for an `ApplicationTags` whose cluster (resp. shard) is absent,
`get_as_list` still contains the cluster (resp. shard) tag key bound to the
sentinel `NULL_TAG_VAL`, while the tag map of every event emitted by
`process_response` omits that dimension's key entirely. -/
theorem C6_null_dimension_serializations (t : ApplicationTags)
    (request : Request) (response : Response) :
    (t.cluster = none →
      (CLUSTER_TAG_KEY, NULL_TAG_VAL) ∈ t.get_as_list ∧
      ((process_response_events (enabledMiddleware t) request response).all
        (fun e => (List.lookup "cluster" (eventTags e)).isNone)) = true) ∧
    (t.shard = none →
      (SHARD_TAG_KEY, NULL_TAG_VAL) ∈ t.get_as_list ∧
      ((process_response_events (enabledMiddleware t) request response).all
        (fun e => (List.lookup "shard" (eventTags e)).isNone)) = true) := by
  constructor
  · intro hc
    refine ⟨by simp [ApplicationTags.get_as_list, pyOr, hc], ?_⟩
    rw [List.all_eq_true]
    refine tags_of_response_events (enabledMiddleware t) request response
      (fun tm => (List.lookup "cluster" tm).isNone = true) ?_
    intro c sv sh mn fn so hcarg hsharg
    rcases hcarg with rfl | rfl
    · rw [lookup_tags_map_cluster _ _ _ _ _ _
        (by simp [enabledMiddleware, pyOr, hc, pyTruthy, NULL_TAG_VAL])]
      rfl
    · rw [lookup_tags_map_cluster none sv sh mn fn so rfl]
      rfl
  · intro hs
    refine ⟨by simp [ApplicationTags.get_as_list, pyOr, hs], ?_⟩
    rw [List.all_eq_true]
    refine tags_of_response_events (enabledMiddleware t) request response
      (fun tm => (List.lookup "shard" tm).isNone = true) ?_
    intro c sv sh mn fn so hcarg hsharg
    rcases hsharg with rfl | rfl
    · rw [lookup_tags_map_shard _ _ _ _ _ _
        (by simp [enabledMiddleware, pyOr, hs, pyTruthy, NULL_TAG_VAL])]
      rfl
    · rw [lookup_tags_map_shard c sv none mn fn so rfl]
      rfl

/-- C6 witness: concrete tags with cluster and shard both absent: both
dimensions appear in `get_as_list` with the sentinel value and no response
event's tag map carries a `cluster` or `shard` key. -/
theorem C6_null_dimension_serializations_witness :
    ((CLUSTER_TAG_KEY, NULL_TAG_VAL) ∈
      ({ application := "beachshirts", service := "styling", cluster := none,
         shard := none, custom_tags := none } : ApplicationTags).get_as_list ∧
     ((process_response_events (enabledMiddleware
       { application := "beachshirts", service := "styling", cluster := none,
         shard := none, custom_tags := none })
       { resolver_match :=
           some { url_name := some "make", view_name := "shirts.views.make" },
         method := "GET", func_name := "make", module_name := "shirts.views",
         has_wf_start := true }
       { status_code := 200 }).all
       (fun e => (List.lookup "cluster" (eventTags e)).isNone)) = true) ∧
    ((SHARD_TAG_KEY, NULL_TAG_VAL) ∈
      ({ application := "beachshirts", service := "styling", cluster := none,
         shard := none, custom_tags := none } : ApplicationTags).get_as_list ∧
     ((process_response_events (enabledMiddleware
       { application := "beachshirts", service := "styling", cluster := none,
         shard := none, custom_tags := none })
       { resolver_match :=
           some { url_name := some "make", view_name := "shirts.views.make" },
         method := "GET", func_name := "make", module_name := "shirts.views",
         has_wf_start := true }
       { status_code := 200 }).all
       (fun e => (List.lookup "shard" (eventTags e)).isNone)) = true) := by
  have h := C6_null_dimension_serializations
    { application := "beachshirts", service := "styling", cluster := none,
      shard := none, custom_tags := none }
    { resolver_match :=
        some { url_name := some "make", view_name := "shirts.views.make" },
      method := "GET", func_name := "make", module_name := "shirts.views",
      has_wf_start := true }
    { status_code := 200 }
  exact ⟨h.1 rfl, h.2 rfl⟩

/-- C8: `ApplicationTags` construction fails with a configuration-kind error
iff the application or the service argument is falsy (missing or empty); when
both are truthy, construction succeeds and the stored application, service,
cluster, shard and custom_tags equal the arguments (immutable structure
fields, matching the read-only Python properties). -/
theorem C8_application_tags_validation
    (application service cluster shard : Option String)
    (custom_tags : Option (List (String × String))) :
    ((∃ msg, ApplicationTags.init application service cluster shard
        custom_tags = Except.error msg) ↔
      pyTruthy application = false ∨ pyTruthy service = false) ∧
    (∀ a s, application = some a → service = some s →
      pyTruthy application = true → pyTruthy service = true →
      ApplicationTags.init application service cluster shard custom_tags =
        Except.ok
          { application := a, service := s, cluster := cluster,
            shard := shard, custom_tags := custom_tags }) := by
  constructor
  · cases ha : pyTruthy application <;> cases hs : pyTruthy service <;>
      simp [ApplicationTags.init, ha, hs]
  · intro a s ha hs hta hts
    subst ha
    subst hs
    simp [ApplicationTags.init, hta, hts]

/-- C8 witness: with both application and service non-empty, construction
succeeds and stores the arguments; the error characterisation holds at this
input. -/
theorem C8_application_tags_validation_witness :
    ((∃ msg, ApplicationTags.init (some "beachshirts") (some "styling")
        none none none = Except.error msg) ↔
      pyTruthy (some "beachshirts") = false ∨
        pyTruthy (some "styling") = false) ∧
    ApplicationTags.init (some "beachshirts") (some "styling") none none none =
      Except.ok
        { application := "beachshirts", service := "styling",
          cluster := none, shard := none, custom_tags := none } := by
  have h := C8_application_tags_validation (some "beachshirts")
    (some "styling") none none none
  exact ⟨h.1, h.2 "beachshirts" "styling" rfl rfl (by decide) (by decide)⟩

/-- C9: when any of the three required configuration objects fails its
`isinstance` check at startup (missing or of the wrong type), the middleware
is disabled, `process_view` returns without touching the registry and
`process_response` returns the response unchanged with the registry
untouched. -/
theorem C9_disabled_noop (settings : String → Option ConfValue)
    (env : String → Option String) (st : Registry) (request : Request)
    (response : Response)
    (h : isinstance_WavefrontReporter
        (get_conf settings env "WF_REPORTER") = false ∨
      isinstance_ApplicationTags
        (get_conf settings env "APPLICATION_TAGS") = false ∨
      isinstance_DjangoTracing
        (get_conf settings env "OPENTRACING_TRACING") = false) :
    (WavefrontMiddleware.init settings env).MIDDLEWARE_ENABLED = false ∧
    process_view (WavefrontMiddleware.init settings env) st request =
      (st, request) ∧
    process_response (WavefrontMiddleware.init settings env) st request
      response = (st, response) := by
  have hdis : WavefrontMiddleware.init settings env = disabledMiddleware := by
    simp only [WavefrontMiddleware.init]
    split
    · rename_i t heqA heqR heqT
      rcases h with h | h | h
      · rw [heqR] at h
        exact Bool.noConfusion h
      · rw [heqA] at h
        simp [isinstance_ApplicationTags] at h
      · rw [heqT] at h
        exact Bool.noConfusion h
    · rfl
  rw [hdis]
  exact ⟨rfl, rfl, rfl⟩

/-- C9 witness: with no configuration at all, every check fails, the
middleware stays disabled and both hooks are no-ops on a fresh registry. -/
theorem C9_disabled_noop_witness :
    isinstance_WavefrontReporter
      (get_conf (fun _ => none) (fun _ => none) "WF_REPORTER") = false ∧
    ((WavefrontMiddleware.init (fun _ => none) (fun _ => none)).MIDDLEWARE_ENABLED
        = false ∧
      process_view (WavefrontMiddleware.init (fun _ => none) (fun _ => none))
        emptyRegistry
        { resolver_match := none, method := "GET", func_name := "f",
          module_name := "m", has_wf_start := false } =
        (emptyRegistry,
         { resolver_match := none, method := "GET", func_name := "f",
           module_name := "m", has_wf_start := false }) ∧
      process_response (WavefrontMiddleware.init (fun _ => none) (fun _ => none))
        emptyRegistry
        { resolver_match := none, method := "GET", func_name := "f",
          module_name := "m", has_wf_start := false }
        { status_code := 200 } =
        (emptyRegistry, { status_code := 200 })) := by
  refine ⟨rfl, ?_⟩
  exact C9_disabled_noop (fun _ => none) (fun _ => none) emptyRegistry
    { resolver_match := none, method := "GET", func_name := "f",
      module_name := "m", has_wf_start := false }
    { status_code := 200 } (Or.inl rfl)

/-- C10: when a request has a `resolver_match` whose `url_name` is `None` or
empty, `get_entity_name` derives the entity name from `view_name` and
sanitizes it; the `'UNKNOWN'` sentinel is produced only by the
no-`resolver_match` branch. -/
theorem C10_entity_fallback (rm : ResolverMatch) (meth fn mn : String)
    (ws : Bool) (h : rm.url_name = none ∨ rm.url_name = some "") :
    get_entity_name
      { resolver_match := some rm, method := meth, func_name := fn,
        module_name := mn, has_wf_start := ws } =
      sanitize_entity_name rm.view_name ∧
    get_entity_name
      { resolver_match := none, method := meth, func_name := fn,
        module_name := mn, has_wf_start := ws } = "UNKNOWN" := by
  constructor
  · rcases h with h | h <;>
      simp [get_entity_name, sanitize_entity_name, pyTruthy, h]
  · rfl

/-- C10 witness: with `url_name = some ""` the entity name comes from the
sanitized `view_name`, and a request without `resolver_match` yields
`'UNKNOWN'`. -/
theorem C10_entity_fallback_witness :
    ((some "" : Option String) = none ∨ (some "" : Option String) = some "") ∧
    (get_entity_name
      { resolver_match :=
          some { url_name := some "", view_name := "shirts.views.make" },
        method := "GET", func_name := "make", module_name := "shirts.views",
        has_wf_start := false } =
      sanitize_entity_name "shirts.views.make" ∧
    get_entity_name
      { resolver_match := none, method := "GET", func_name := "make",
        module_name := "shirts.views", has_wf_start := false } =
      "UNKNOWN") :=
  ⟨Or.inr rfl,
   C10_entity_fallback { url_name := some "", view_name := "shirts.views.make" }
     "GET" "make" "shirts.views" false (Or.inr rfl)⟩
